import Mathlib

/-!
# StreamNonTunnel lifecycle state machine

A shallow embedding of `src/stream/src/StreamNonTunnel.cpp`.

* The stream object is a record of the fields the methods read or write.
* `rm->cardState` and `errno` form the `World`; they are read where the source
  reads them, and an external call (a `Session` method) replaces them with the
  values that call leaves behind.
* The `Session` and `ResourceManager` are external collaborators: what each of
  their calls returns is given by an `Env`, and every call a method makes is
  recorded, in program order, in the `trace` of its result.
* `mStreamMutex` is a mutex that is not recursive. The object carries the
  depth at which it is held and each `lock()` records the depth it found. A
  method that calls another locking method of the stream while it still holds
  the mutex waits for ever in the callee's `lock()`: such a call does not
  return, and its result says so (`returns = false`).
* Logging macros (`PAL_ERR`, `PAL_DBG`, ...) have no effect and are omitted.
-/

namespace PalStream

/-! ## Error numbers (`<errno.h>`, Linux values) -/

def EIO : Int := 5
def EINVAL : Int := 22
def ENETRESET : Int := 102

/-! ## Data model -/

/-- Lifecycle states of a stream, `stream_state_t`. -/
inductive stream_state_t
  | STREAM_IDLE
  | STREAM_INIT
  | STREAM_STARTED
  | STREAM_PAUSED
  | STREAM_STOPPED
  deriving DecidableEq, Repr

/-- Global sound-card state kept by the resource manager, `rm->cardState`. -/
inductive card_status_t
  | CARD_STATUS_OFFLINE
  | CARD_STATUS_ONLINE
  deriving DecidableEq, Repr

open stream_state_t card_status_t

/-- Media configuration of one direction: the three fields the data path reads
(`sample_rate`, `bit_width` and `ch_info.channels`), all unsigned. -/
structure pal_media_config where
  sample_rate : Nat
  bit_width : Nat
  channels : Nat
  deriving DecidableEq, Repr

/-- Stream attributes, `struct pal_stream_attributes` (fields used here). -/
structure pal_stream_attributes where
  in_media_config : pal_media_config
  out_media_config : pal_media_config
  deriving DecidableEq, Repr

/-- Client buffer, `struct pal_buffer`: the bytes behind `buffer` and the
`size` field, an unsigned byte count (`size_t` in the PAL API header). The
methods copy it into an `int32_t` local. -/
structure pal_buffer where
  buffer : List Nat
  size : Nat
  deriving DecidableEq, Repr

/-- The process state the stream consults: `rm->cardState` and `errno`. -/
structure World where
  cardState : card_status_t
  errno : Int
  deriving DecidableEq, Repr

/-- Calls a method makes on its collaborators, in program order. -/
inductive Event
  | mutex_lock (depth : Nat)
  | mutex_unlock
  | lockGraph
  | unlockGraph
  | session_open
  | session_close
  | session_prepare
  | session_start
  | session_stop
  | session_read
  | session_write
  | session_flush
  | session_setParameters
  | session_registerCallBack
  | makeSession
  | ssrHandler (state : card_status_t)
  | registerStream
  | deregisterStream
  | delete_session
  | usleep_SSR_RECOVERY
  | usleep (usec : Nat)
  | memset (count : Nat)
  deriving DecidableEq, Repr

/-- What a `Session` method leaves behind: its return value and the `errno`
and card state observable once it has returned. -/
structure Reply where
  status : Int
  after : World
  deriving DecidableEq, Repr

/-- Reply of `session->read` / `session->write`: additionally the value left in
the `size` out-parameter and (for read) the buffer contents. -/
structure IoReply where
  status : Int
  after : World
  size : Int
  data : List Nat
  deriving DecidableEq, Repr

/-- Outcomes of the external calls a method may make. -/
structure Env where
  sessionOpen : Reply
  sessionClose : Reply
  sessionPrepare : Reply
  sessionStart : Reply
  sessionStop : Reply
  sessionRead : IoReply
  sessionWrite : IoReply
  deregisterStream : Int
  deriving DecidableEq, Repr

/-- The fields of a `StreamNonTunnel` object. `session` is `true` while the
stream holds its session object (the pointer is not null); `mStreamMutex` is
the current lock depth. -/
structure StreamNonTunnel where
  currentState : stream_state_t
  cachedState : stream_state_t
  session : Bool
  mStreamAttr : pal_stream_attributes
  mStreamMutex : Nat
  deriving DecidableEq, Repr

/-- Result of a lifecycle method: returned status, object and world afterwards,
and the calls made. `returns` is `false` when the call never returns because
the thread waits on the stream mutex it already holds; `status`, `stream`,
`world` and `trace` then describe the point where it waits. -/
structure CallResult where
  status : Int
  stream : StreamNonTunnel
  world : World
  trace : List Event
  returns : Bool := true
  deriving DecidableEq, Repr

/-- Result of `read`: as `CallResult`, with the buffer contents afterwards. -/
structure ReadResult where
  status : Int
  stream : StreamNonTunnel
  world : World
  trace : List Event
  buffer : List Nat
  deriving DecidableEq, Repr

/-! ## Machine integers -/

/-- Conversion of an unsigned value to `int32_t` (two's complement). -/
def toInt32 (n : Nat) : Int :=
  if n % 2 ^ 32 < 2 ^ 31 then ((n % 2 ^ 32 : Nat) : Int)
  else ((n % 2 ^ 32 : Nat) : Int) - 2 ^ 32

/-- Conversion of a signed value to `uint64_t`. -/
def toUInt64 (i : Int) : Nat := (i % 2 ^ 64).toNat

/-- The value of the expression
`(uint64_t)size * 1000000 / frameSize / sampleRate` of the offline data path, in
`uint64_t`. -/
def sleepExpr (size : Int) (frameSize sampleRate : Nat) : Nat :=
  (toUInt64 size * 1000000) % 2 ^ 64 / frameSize / sampleRate

/-- Conversion of an unsigned value to the 32-bit `useconds_t` parameter of
`usleep`. -/
def toUSeconds (n : Nat) : Nat := n % 2 ^ 32

/-- The number of microseconds `usleep` is asked to sleep on the offline data
path: the value of the `uint64_t` expression, narrowed to `useconds_t` by the
call. -/
def sleepMicros (size : Int) (frameSize sampleRate : Nat) : Nat :=
  toUSeconds (sleepExpr size frameSize sampleRate)

/-- Bytes per frame as the data path computes it, in `uint32_t`:
`(bit_width / 8) * channels`. -/
def frameSize (c : pal_media_config) : Nat :=
  ((c.bit_width / 8) * c.channels) % 2 ^ 32

/-- Effect of `memset(buffer, 0, count)` on the bytes of the buffer. -/
def memsetZero (buffer : List Nat) (count : Nat) : List Nat :=
  List.replicate (min count buffer.length) 0 ++ buffer.drop count

/-! ## Trace observers -/

/-- Whether an event is a call on the session object. -/
def Event.isSessionCall : Event → Bool
  | .session_open => true
  | .session_close => true
  | .session_prepare => true
  | .session_start => true
  | .session_stop => true
  | .session_read => true
  | .session_write => true
  | .session_flush => true
  | .session_setParameters => true
  | .session_registerCallBack => true
  | _ => false

/-- Whether an event takes or releases the resource manager graph lock. -/
def Event.isGraphLockCall : Event → Bool
  | .lockGraph => true
  | .unlockGraph => true
  | _ => false

/-- The session calls of a trace, in order. -/
def sessionCalls (t : List Event) : List Event := t.filter Event.isSessionCall

/-- The graph-lock calls of a trace, in order. -/
def graphLockCalls (t : List Event) : List Event := t.filter Event.isGraphLockCall

/-! ## Methods -/

/-- Effect of `mStreamMutex.lock()` on the object. -/
def StreamNonTunnel.lock (s : StreamNonTunnel) : StreamNonTunnel :=
  { s with mStreamMutex := s.mStreamMutex + 1 }

/-- Effect of `mStreamMutex.unlock()` on the object. -/
def StreamNonTunnel.unlock (s : StreamNonTunnel) : StreamNonTunnel :=
  { s with mStreamMutex := s.mStreamMutex - 1 }

/-- Embedding of `StreamNonTunnel::open()`. -/
def StreamNonTunnel.open (s : StreamNonTunnel) (w : World) (e : Env) : CallResult :=
  let s1 := s.lock
  if w.cardState = CARD_STATUS_OFFLINE then
    { status := - EIO, stream := s1.unlock, world := w,
      trace := [.mutex_lock s.mStreamMutex, .usleep_SSR_RECOVERY, .mutex_unlock] }
  else if s1.currentState = STREAM_IDLE then
    let r := e.sessionOpen
    if r.status ≠ 0 then
      { status := r.status, stream := s1.unlock, world := r.after,
        trace := [.mutex_lock s.mStreamMutex, .session_open, .mutex_unlock] }
    else
      { status := r.status,
        stream := StreamNonTunnel.unlock { s1 with currentState := STREAM_INIT },
        world := r.after,
        trace := [.mutex_lock s.mStreamMutex, .session_open, .mutex_unlock] }
  else if s1.currentState = STREAM_INIT then
    { status := 0, stream := s1.unlock, world := w,
      trace := [.mutex_lock s.mStreamMutex, .mutex_unlock] }
  else
    { status := - EINVAL, stream := s1.unlock, world := w,
      trace := [.mutex_lock s.mStreamMutex, .mutex_unlock] }

/-- Embedding of `StreamNonTunnel::stop()`. -/
def StreamNonTunnel.stop (s : StreamNonTunnel) (w : World) (e : Env) : CallResult :=
  let s1 := s.lock
  if s1.currentState = STREAM_STARTED ∨ s1.currentState = STREAM_PAUSED then
    let r := e.sessionStop
    { status := r.status,
      stream := StreamNonTunnel.unlock { s1 with currentState := STREAM_STOPPED },
      world := r.after,
      trace := [.mutex_lock s.mStreamMutex, .session_stop, .mutex_unlock] }
  else if s1.currentState = STREAM_STOPPED ∨ s1.currentState = STREAM_IDLE then
    { status := 0, stream := s1.unlock, world := w,
      trace := [.mutex_lock s.mStreamMutex, .mutex_unlock] }
  else
    { status := - EINVAL, stream := s1.unlock, world := w,
      trace := [.mutex_lock s.mStreamMutex, .mutex_unlock] }

/-- The `exit:` block of `StreamNonTunnel::close()`: reset to idle, unlock,
deregister (whose status is what close returns), delete the session. -/
def StreamNonTunnel.closeExit (s : StreamNonTunnel) (w : World) (e : Env)
    (t : List Event) : CallResult :=
  let s1 := StreamNonTunnel.unlock { s with currentState := STREAM_IDLE }
  { status := e.deregisterStream,
    stream := { s1 with session := false },
    world := w,
    trace := t ++ [.mutex_unlock, .deregisterStream, .delete_session] }

/-- A call to a locking method of the stream made while the caller still holds
`mStreamMutex`: the callee begins with `mStreamMutex.lock()`, which never
returns. `s` is the object as the caller holds it, `status` the caller's local
status and `t` the calls made so far. -/
def StreamNonTunnel.blockedAtLock (s : StreamNonTunnel) (w : World) (status : Int)
    (t : List Event) : CallResult :=
  { status := status, stream := s, world := w,
    trace := t ++ [.mutex_lock s.mStreamMutex], returns := false }

/-- Embedding of `StreamNonTunnel::close()`. From STARTED or PAUSED it calls
`stop()` without releasing the mutex it took on entry, so the call waits in the
`mStreamMutex.lock()` of `stop()` with its local `status` still 0. -/
def StreamNonTunnel.close (s : StreamNonTunnel) (w : World) (e : Env) : CallResult :=
  let s1 := s.lock
  let t1 : List Event := [.mutex_lock s.mStreamMutex]
  if s1.currentState = STREAM_IDLE then
    s1.closeExit w e t1
  else if s1.currentState = STREAM_STARTED ∨ s1.currentState = STREAM_PAUSED then
    s1.blockedAtLock w 0 t1
  else
    s1.closeExit e.sessionClose.after e
      (t1 ++ [.lockGraph, .session_close, .unlockGraph])

/-- The test `errno == -ENETRESET && rm->cardState != CARD_STATUS_OFFLINE`. -/
def transportReset (w : World) : Bool :=
  decide (w.errno = - ENETRESET) && decide (w.cardState ≠ CARD_STATUS_OFFLINE)

/-- Embedding of `StreamNonTunnel::start()`. -/
def StreamNonTunnel.start (s : StreamNonTunnel) (w : World) (e : Env) : CallResult :=
  let s1 := s.lock
  if w.cardState = CARD_STATUS_OFFLINE then
    { status := 0,
      stream := StreamNonTunnel.unlock { s1 with cachedState := STREAM_STARTED },
      world := w,
      trace := [.mutex_lock s.mStreamMutex, .mutex_unlock] }
  else if s1.currentState = STREAM_INIT ∨ s1.currentState = STREAM_STOPPED then
    let p := e.sessionPrepare
    if p.status ≠ 0 then
      { status := p.status, stream := s1.unlock, world := p.after,
        trace := [.mutex_lock s.mStreamMutex, .lockGraph, .session_prepare,
                  .unlockGraph, .mutex_unlock] }
    else
      let r := e.sessionStart
      if transportReset r.after then
        { status := r.status,
          stream := StreamNonTunnel.unlock { s1 with cachedState := STREAM_STARTED },
          world := r.after,
          trace := [.mutex_lock s.mStreamMutex, .lockGraph, .session_prepare,
                    .session_start, .ssrHandler CARD_STATUS_OFFLINE,
                    .unlockGraph, .mutex_unlock] }
      else if r.status ≠ 0 then
        { status := r.status, stream := s1.unlock, world := r.after,
          trace := [.mutex_lock s.mStreamMutex, .lockGraph, .session_prepare,
                    .session_start, .unlockGraph, .mutex_unlock] }
      else
        { status := r.status,
          stream := StreamNonTunnel.unlock { s1 with currentState := STREAM_STARTED },
          world := r.after,
          trace := [.mutex_lock s.mStreamMutex, .lockGraph, .session_prepare,
                    .session_start, .unlockGraph, .mutex_unlock] }
  else if s1.currentState = STREAM_STARTED then
    { status := 0, stream := s1.unlock, world := w,
      trace := [.mutex_lock s.mStreamMutex, .mutex_unlock] }
  else
    { status := - EINVAL, stream := s1.unlock, world := w,
      trace := [.mutex_lock s.mStreamMutex, .mutex_unlock] }

/-- Embedding of `StreamNonTunnel::read()`. The method takes no lock. -/
def StreamNonTunnel.read (s : StreamNonTunnel) (w : World) (e : Env)
    (buf : pal_buffer) : ReadResult :=
  if w.cardState = CARD_STATUS_OFFLINE ∨ s.cachedState ≠ STREAM_IDLE then
    let sampleRate := s.mStreamAttr.in_media_config.sample_rate
    let streamSize := frameSize s.mStreamAttr.in_media_config
    if streamSize = 0 ∨ sampleRate = 0 then
      { status := - EINVAL, stream := s, world := w, trace := [], buffer := buf.buffer }
    else
      let size := toInt32 buf.size
      { status := size, stream := s, world := w,
        trace := [.memset (toUInt64 size), .usleep (sleepMicros size streamSize sampleRate)],
        buffer := memsetZero buf.buffer (toUInt64 size) }
  else if s.currentState = STREAM_STARTED then
    let r := e.sessionRead
    if r.status ≠ 0 then
      if transportReset r.after then
        { status := toInt32 buf.size, stream := s, world := r.after,
          trace := [.session_read, .ssrHandler CARD_STATUS_OFFLINE], buffer := r.data }
      else if r.after.cardState = CARD_STATUS_OFFLINE then
        { status := toInt32 buf.size, stream := s, world := r.after,
          trace := [.session_read], buffer := r.data }
      else
        { status := r.after.errno, stream := s, world := r.after,
          trace := [.session_read], buffer := r.data }
    else
      { status := r.size, stream := s, world := r.after,
        trace := [.session_read], buffer := r.data }
  else
    { status := - EINVAL, stream := s, world := w, trace := [], buffer := buf.buffer }

/-- Embedding of `StreamNonTunnel::write()`. The lock is held only around the
offline test. -/
def StreamNonTunnel.write (s : StreamNonTunnel) (w : World) (e : Env)
    (buf : pal_buffer) : CallResult :=
  let s1 := s.lock
  if w.cardState = CARD_STATUS_OFFLINE ∨ s1.cachedState ≠ STREAM_IDLE then
    let sampleRate := s1.mStreamAttr.out_media_config.sample_rate
    let frameSz := frameSize s1.mStreamAttr.out_media_config
    if frameSz = 0 ∨ sampleRate = 0 then
      { status := - EINVAL, stream := s1.unlock, world := w,
        trace := [.mutex_lock s.mStreamMutex, .mutex_unlock] }
    else
      let size := toInt32 buf.size
      { status := size, stream := s1.unlock, world := w,
        trace := [.mutex_lock s.mStreamMutex, .usleep (sleepMicros size frameSz sampleRate),
                  .mutex_unlock] }
  else
    let s2 := s1.unlock
    if s2.currentState = STREAM_STARTED then
      let r := e.sessionWrite
      if r.status ≠ 0 then
        if transportReset r.after then
          { status := toInt32 buf.size, stream := s2, world := r.after,
            trace := [.mutex_lock s.mStreamMutex, .mutex_unlock, .session_write,
                      .ssrHandler CARD_STATUS_OFFLINE] }
        else if r.after.cardState = CARD_STATUS_OFFLINE then
          { status := toInt32 buf.size, stream := s2, world := r.after,
            trace := [.mutex_lock s.mStreamMutex, .mutex_unlock, .session_write] }
        else
          { status := r.after.errno, stream := s2, world := r.after,
            trace := [.mutex_lock s.mStreamMutex, .mutex_unlock, .session_write] }
      else
        { status := r.size, stream := s2, world := r.after,
          trace := [.mutex_lock s.mStreamMutex, .mutex_unlock, .session_write] }
    else if s2.currentState = STREAM_STOPPED then
      { status := - EIO, stream := s2, world := w,
        trace := [.mutex_lock s.mStreamMutex, .mutex_unlock] }
    else
      { status := - EINVAL, stream := s2, world := w,
        trace := [.mutex_lock s.mStreamMutex, .mutex_unlock] }

/-- Embedding of `StreamNonTunnel::prepare()`. -/
def StreamNonTunnel.prepare (s : StreamNonTunnel) (_w : World) (e : Env) : CallResult :=
  let s1 := s.lock
  let r := e.sessionPrepare
  { status := r.status, stream := s1.unlock, world := r.after,
    trace := [.mutex_lock s.mStreamMutex, .session_prepare, .mutex_unlock] }

/-- Embedding of `StreamNonTunnel::pause()`. -/
def StreamNonTunnel.pause (s : StreamNonTunnel) (w : World) (_e : Env) : CallResult :=
  { status := - EINVAL, stream := s, world := w, trace := [] }

/-- Embedding of `StreamNonTunnel::resume()`. -/
def StreamNonTunnel.resume (s : StreamNonTunnel) (w : World) (_e : Env) : CallResult :=
  { status := - EINVAL, stream := s, world := w, trace := [] }

/-- Embedding of `StreamNonTunnel::ssrDownHandler()`. -/
def StreamNonTunnel.ssrDownHandler (s : StreamNonTunnel) (w : World) (e : Env) :
    CallResult :=
  let s1 := s.lock
  let s2 : StreamNonTunnel :=
    if s1.cachedState = STREAM_IDLE then { s1 with cachedState := s1.currentState } else s1
  if s2.currentState = STREAM_INIT ∨ s2.currentState = STREAM_STOPPED then
    let r := e.sessionClose
    { status := r.status,
      stream := StreamNonTunnel.unlock { s2 with currentState := STREAM_IDLE },
      world := r.after,
      trace := [.mutex_lock s.mStreamMutex, .lockGraph, .session_close, .unlockGraph,
                .mutex_unlock] }
  else if s2.currentState = STREAM_STARTED ∨ s2.currentState = STREAM_PAUSED then
    let s3 := s2.unlock
    let st := s3.stop w e
    let s4 := st.stream.lock
    let r := e.sessionClose
    { status := r.status,
      stream := StreamNonTunnel.unlock { s4 with currentState := STREAM_IDLE },
      world := r.after,
      trace := [.mutex_lock s.mStreamMutex, .mutex_unlock] ++ st.trace ++
        [.mutex_lock st.stream.mStreamMutex, .lockGraph, .session_close, .unlockGraph,
         .mutex_unlock] }
  else
    { status := 0, stream := s2.unlock, world := w,
      trace := [.mutex_lock s.mStreamMutex, .mutex_unlock] }

/-- The stream's own methods that `ssrUpHandler()` invokes. -/
inductive ReplayCall
  | OPEN
  | START
  | PAUSE
  deriving DecidableEq, Repr

/-- Result of `ssrUpHandler()`: as `CallResult`, with the list of own methods it
invoked, in order. -/
structure ReplayResult where
  status : Int
  stream : StreamNonTunnel
  world : World
  trace : List Event
  calls : List ReplayCall
  deriving DecidableEq, Repr

/-- The `exit:` block of `StreamNonTunnel::ssrUpHandler()`: the cached state is
reset to idle and the status returned. -/
def StreamNonTunnel.ssrUpExit (r : CallResult) (t : List Event) (calls : List ReplayCall) :
    ReplayResult :=
  { status := r.status, stream := { r.stream with cachedState := STREAM_IDLE },
    world := r.world, trace := t, calls := calls }

/-- Embedding of `StreamNonTunnel::ssrUpHandler()`. The method takes no lock of
its own. -/
def StreamNonTunnel.ssrUpHandler (s : StreamNonTunnel) (w : World) (e : Env) :
    ReplayResult :=
  if s.cachedState = STREAM_INIT then
    let o := s.open w e
    StreamNonTunnel.ssrUpExit o o.trace [.OPEN]
  else if s.cachedState = STREAM_STARTED then
    let o := s.open w e
    if o.status ≠ 0 then
      StreamNonTunnel.ssrUpExit o o.trace [.OPEN]
    else
      let st := o.stream.start o.world e
      StreamNonTunnel.ssrUpExit st (o.trace ++ st.trace) [.OPEN, .START]
  else if s.cachedState = STREAM_PAUSED then
    let o := s.open w e
    if o.status ≠ 0 then
      StreamNonTunnel.ssrUpExit o o.trace [.OPEN]
    else
      let st := o.stream.start o.world e
      if st.status ≠ 0 then
        StreamNonTunnel.ssrUpExit st (o.trace ++ st.trace) [.OPEN, .START]
      else
        let p := st.stream.pause st.world e
        StreamNonTunnel.ssrUpExit p (o.trace ++ st.trace ++ p.trace) [.OPEN, .START, .PAUSE]
  else
    StreamNonTunnel.ssrUpExit { status := 0, stream := s, world := w, trace := [] } [] []

/-! ## Graph-lock discipline of a trace -/

/-- The session calls that mutate the shared graph: open, close, start and
prepare. -/
def Event.needsGraphLock : Event → Bool
  | .session_open => true
  | .session_close => true
  | .session_start => true
  | .session_prepare => true
  | _ => false

/-- Scan of a trace from a given graph-lock state (`held`): every `lockGraph` is
taken while the lock is free, every `unlockGraph` releases a held lock, and the
lock is free at the end. -/
def graphLockBalancedFrom : Bool → List Event → Bool
  | held, [] => !held
  | held, .lockGraph :: t => !held && graphLockBalancedFrom true t
  | held, .unlockGraph :: t => held && graphLockBalancedFrom false t
  | held, _ :: t => graphLockBalancedFrom held t

/-- Scan of a trace from a given graph-lock state (`held`): every session open,
close, start or prepare occurs while the lock is held. -/
def guardedUnderGraphLockFrom : Bool → List Event → Bool
  | _, [] => true
  | _, .lockGraph :: t => guardedUnderGraphLockFrom true t
  | _, .unlockGraph :: t => guardedUnderGraphLockFrom false t
  | held, ev :: t => (!ev.needsGraphLock || held) && guardedUnderGraphLockFrom held t

/-- Every `lockGraph` of the trace is matched by one `unlockGraph`. -/
def graphLockBalanced (t : List Event) : Bool := graphLockBalancedFrom false t

/-- Every session open, close, start or prepare of the trace happens between a
`lockGraph` and its `unlockGraph`. -/
def guardedUnderGraphLock (t : List Event) : Bool := guardedUnderGraphLockFrom false t

/-! ## Call sequences -/

/-- The object state the constructor establishes before it returns
(`currentState = cachedState = STREAM_IDLE`, a session attached, the mutex
released). -/
def freshStream (attr : pal_stream_attributes) : StreamNonTunnel :=
  { currentState := STREAM_IDLE, cachedState := STREAM_IDLE, session := true,
    mStreamAttr := attr, mStreamMutex := 0 }

/-- The four lifecycle calls a client issues. -/
inductive LifecycleCall
  | OPEN
  | START
  | STOP
  | CLOSE
  deriving DecidableEq, Repr

/-- One client call together with the world it finds and the outcomes of the
external calls it makes. -/
structure LifecycleStep where
  call : LifecycleCall
  world : World
  env : Env
  deriving DecidableEq, Repr

/-- Dispatch of one lifecycle call. -/
def StreamNonTunnel.lifecycle (s : StreamNonTunnel) (c : LifecycleCall) (w : World)
    (e : Env) : CallResult :=
  match c with
  | .OPEN => s.open w e
  | .START => s.start w e
  | .STOP => s.stop w e
  | .CLOSE => s.close w e

/-- The object after a sequence of lifecycle calls. A call that never returns
leaves the object as it is where the thread waits. -/
def runLifecycle (s : StreamNonTunnel) : List LifecycleStep → StreamNonTunnel
  | [] => s
  | st :: rest => runLifecycle (s.lifecycle st.call st.world st.env).stream rest

/-! ## Concrete inputs used by the witnesses -/

/-- Stereo, 16 bit, 48 kHz in both directions. -/
def stereo48k : pal_stream_attributes :=
  { in_media_config := { sample_rate := 48000, bit_width := 16, channels := 2 },
    out_media_config := { sample_rate := 48000, bit_width := 16, channels := 2 } }

/-- Card online, `errno` clear. -/
def onlineWorld : World := { cardState := CARD_STATUS_ONLINE, errno := 0 }

/-- Card offline, `errno` clear. -/
def offlineWorld : World := { cardState := CARD_STATUS_OFFLINE, errno := 0 }

/-- Every external call succeeds and leaves the card online; the data calls
transfer 1024 bytes. -/
def okEnv : Env :=
  { sessionOpen := { status := 0, after := onlineWorld },
    sessionClose := { status := 0, after := onlineWorld },
    sessionPrepare := { status := 0, after := onlineWorld },
    sessionStart := { status := 0, after := onlineWorld },
    sessionStop := { status := 0, after := onlineWorld },
    sessionRead := { status := 0, after := onlineWorld, size := 1024, data := [] },
    sessionWrite := { status := 0, after := onlineWorld, size := 1024, data := [] },
    deregisterStream := 0 }

/-- A stream in a given lifecycle state, nothing cached, mutex free. -/
def streamIn (st : stream_state_t) : StreamNonTunnel :=
  { freshStream stereo48k with currentState := st }

/-- An environment whose session prepare fails with -5. -/
def prepareFailsEnv : Env :=
  { okEnv with sessionPrepare := { status := -5, after := onlineWorld } }

/-- An environment whose session start fails with -5, no reset signalled. -/
def startFailsEnv : Env :=
  { okEnv with sessionStart := { status := -5, after := onlineWorld } }

/-- The calls open, start with every external call succeeding, card online. -/
def openThenStart : List LifecycleStep :=
  [{ call := .OPEN, world := onlineWorld, env := okEnv },
   { call := .START, world := onlineWorld, env := okEnv }]

/-- A two-gibibyte request: `size = 2 ^ 31`. -/
def hugeBuffer : pal_buffer := { buffer := [], size := 2147483648 }

/-- A 4096-byte buffer holding non-zero bytes. -/
def buf4096 : pal_buffer := { buffer := List.replicate 4096 255, size := 4096 }

/-- A configuration whose frame size and sample rate are both zero. -/
def zeroConfig : pal_stream_attributes :=
  { in_media_config := { sample_rate := 0, bit_width := 0, channels := 0 },
    out_media_config := { sample_rate := 0, bit_width := 0, channels := 0 } }

/-- A STARTED stream with the zero configuration, nothing cached. -/
def startedZeroConfig : StreamNonTunnel :=
  { freshStream zeroConfig with currentState := STREAM_STARTED }

/-- The world a session call leaves when it signals a transport reset while the
card is still marked online: `errno == -ENETRESET`. -/
def resetWorld : World := { cardState := CARD_STATUS_ONLINE, errno := - ENETRESET }

/-- Session read, write and start fail with -5 and signal a transport reset. -/
def resetEnv : Env :=
  { okEnv with
    sessionStart := { status := -5, after := resetWorld },
    sessionRead := { status := -5, after := resetWorld, size := 0, data := [] },
    sessionWrite := { status := -5, after := resetWorld, size := 0, data := [] } }

/-- Session read and write fail with -5 and the card is found offline. -/
def wentOfflineEnv : Env :=
  { okEnv with
    sessionRead := { status := -5, after := offlineWorld, size := 0, data := [] },
    sessionWrite := { status := -5, after := offlineWorld, size := 0, data := [] } }

/-- A stream in lifecycle state `cur` with `cached` recorded as cached state. -/
def streamWith (cur cached : stream_state_t) : StreamNonTunnel :=
  { freshStream stereo48k with currentState := cur, cachedState := cached }

/-- The session calls of a replay all succeed: session open, prepare and start
return 0, the card is still online after session open, and session start
signals no transport reset. -/
def replaySucceeds (e : Env) : Prop :=
  e.sessionOpen.status = 0 ∧
  e.sessionOpen.after.cardState = CARD_STATUS_ONLINE ∧
  e.sessionPrepare.status = 0 ∧
  e.sessionStart.status = 0 ∧
  transportReset e.sessionStart.after = false

instance (e : Env) : Decidable (replaySucceeds e) := by
  unfold replaySucceeds
  exact inferInstance

/-- The stream after `ssrDownHandler()` (world `wD`, outcomes `eD`) followed at
once by `ssrUpHandler()` (world `wU`, outcomes `eU`). -/
def ssrRoundTrip (s : StreamNonTunnel) (wD : World) (eD : Env) (wU : World) (eU : Env) :
    StreamNonTunnel :=
  ((s.ssrDownHandler wD eD).stream.ssrUpHandler wU eU).stream

/-- Session close fails with -5 while deregistration succeeds. -/
def closeFailsEnv : Env :=
  { okEnv with sessionClose := { status := -5, after := onlineWorld } }

/-- Session read and write fail with -5 and leave `errno = 5` (the positive
`EIO` of `<errno.h>`), the card still online. -/
def positiveErrnoEnv : Env :=
  { okEnv with
    sessionRead := { status := -5, after := { cardState := CARD_STATUS_ONLINE, errno := 5 },
                     size := 0, data := [] },
    sessionWrite := { status := -5, after := { cardState := CARD_STATUS_ONLINE, errno := 5 },
                      size := 0, data := [] } }

/-- The arguments of the computed `usleep` calls of a trace, in order. -/
def sleepRequests : List Event → List Nat
  | [] => []
  | .usleep n :: t => n :: sleepRequests t
  | _ :: t => sleepRequests t

/-! ## Construction -/

/-- The failures the constructor reports by throwing. -/
inductive ConstructError
  | invalid_arguments
  | sound_card_offline
  | attributes_alloc_failed
  | session_creation_failed
  deriving DecidableEq, Repr

/-- Outcomes of the two fallible steps of the constructor: `calloc` of the
attribute copy and `Session::makeSession`. -/
structure ConstructEnv where
  callocOk : Bool
  makeSessionOk : Bool
  deriving DecidableEq, Repr

/-- What a constructor call leaves: an exception or the new object. -/
inductive Constructed
  | threw (err : ConstructError)
  | built (s : StreamNonTunnel)
  deriving DecidableEq, Repr

/-- Result of the constructor: the outcome and the calls made. -/
structure ConstructResult where
  outcome : Constructed
  trace : List Event
  deriving DecidableEq, Repr

/-- Whether the constructor threw. -/
def ConstructResult.failed (r : ConstructResult) : Bool :=
  match r.outcome with
  | .threw _ => true
  | .built _ => false

/-- The clamp the constructor applies to a copied channel count. -/
def clampChannels (c : pal_media_config) (maxChannels : Nat) : pal_media_config :=
  if c.channels > maxChannels then { c with channels := maxChannels } else c

/-- Embedding of the constructor `StreamNonTunnel::StreamNonTunnel`. `sattr` is
`none` for a null attribute pointer; `maxChannels` stands for the constant
`PAL_MAX_CHANNELS_SUPPORTED`. -/
def StreamNonTunnel.construct (sattr : Option pal_stream_attributes) (w : World)
    (c : ConstructEnv) (maxChannels : Nat) : ConstructResult :=
  match sattr with
  | none =>
    { outcome := .threw .invalid_arguments, trace := [.mutex_lock 0, .mutex_unlock] }
  | some a =>
    if w.cardState = CARD_STATUS_OFFLINE then
      { outcome := .threw .sound_card_offline,
        trace := [.mutex_lock 0, .usleep_SSR_RECOVERY, .mutex_unlock] }
    else if c.callocOk = false then
      { outcome := .threw .attributes_alloc_failed,
        trace := [.mutex_lock 0, .mutex_unlock] }
    else
      let attr : pal_stream_attributes :=
        { in_media_config := clampChannels a.in_media_config maxChannels,
          out_media_config := clampChannels a.out_media_config maxChannels }
      if c.makeSessionOk = false then
        { outcome := .threw .session_creation_failed,
          trace := [.mutex_lock 0, .makeSession, .mutex_unlock] }
      else
        { outcome := .built
            { currentState := STREAM_IDLE, cachedState := STREAM_IDLE, session := true,
              mStreamAttr := attr, mStreamMutex := 0 },
          trace := [.mutex_lock 0, .makeSession, .session_registerCallBack,
                    .registerStream, .mutex_unlock] }

/-- Both fallible steps of construction succeed. -/
def constructOk : ConstructEnv := { callocOk := true, makeSessionOk := true }

/-! ## Arbitrary operation sequences -/

/-- The operations a client or the resource manager may invoke on a stream. -/
inductive StreamOp
  | OPEN
  | START
  | STOP
  | CLOSE
  | PREPARE
  | READ (buf : pal_buffer)
  | WRITE (buf : pal_buffer)
  | PAUSE
  | RESUME
  | SSR_DOWN
  | SSR_UP
  deriving DecidableEq, Repr

/-- One operation together with the world it finds and the outcomes of the
external calls it makes. -/
structure OpStep where
  op : StreamOp
  world : World
  env : Env
  deriving DecidableEq, Repr

/-- The object after one operation. -/
def StreamNonTunnel.perform (s : StreamNonTunnel) (st : OpStep) : StreamNonTunnel :=
  match st.op with
  | .OPEN => (s.open st.world st.env).stream
  | .START => (s.start st.world st.env).stream
  | .STOP => (s.stop st.world st.env).stream
  | .CLOSE => (s.close st.world st.env).stream
  | .PREPARE => (s.prepare st.world st.env).stream
  | .READ buf => (s.read st.world st.env buf).stream
  | .WRITE buf => (s.write st.world st.env buf).stream
  | .PAUSE => (s.pause st.world st.env).stream
  | .RESUME => (s.resume st.world st.env).stream
  | .SSR_DOWN => (s.ssrDownHandler st.world st.env).stream
  | .SSR_UP => (s.ssrUpHandler st.world st.env).stream

/-- The object after a sequence of operations. A call that never returns leaves
the object as it is where the thread waits. -/
def runOps (s : StreamNonTunnel) : List OpStep → StreamNonTunnel
  | [] => s
  | st :: rest => runOps (s.perform st) rest

/-- Neither the lifecycle state nor the cached state is PAUSED. -/
def neverPaused (s : StreamNonTunnel) : Prop :=
  s.currentState ≠ STREAM_PAUSED ∧ s.cachedState ≠ STREAM_PAUSED

instance (s : StreamNonTunnel) : Decidable (neverPaused s) := by
  unfold neverPaused
  exact inferInstance

/-! ## Stream mutex -/

/-- Embedding of `StreamNonTunnel::flush()`; `r` is what `session->flush()`
leaves. -/
def StreamNonTunnel.flush (s : StreamNonTunnel) (_w : World) (r : Reply) : CallResult :=
  let s1 := s.lock
  { status := r.status, stream := s1.unlock, world := r.after,
    trace := [.mutex_lock s.mStreamMutex, .session_flush, .mutex_unlock] }

/-- Embedding of `StreamNonTunnel::setParameters()`. `payload` is `false` for a
null payload pointer, `moduleConfigId` stands for the constant
`PAL_PARAM_ID_MODULE_CONFIG`, and `r` is what `session->setParameters` leaves. -/
def StreamNonTunnel.setParameters (s : StreamNonTunnel) (w : World) (r : Reply)
    (moduleConfigId param_id : Nat) (payload : Bool) : CallResult :=
  if payload = false then
    { status := - EINVAL, stream := s, world := w, trace := [] }
  else
    let s1 := s.lock
    if param_id = moduleConfigId then
      { status := r.status, stream := s1.unlock, world := r.after,
        trace := [.mutex_lock s.mStreamMutex, .session_setParameters, .mutex_unlock] }
    else
      { status := - EINVAL, stream := s1.unlock, world := w,
        trace := [.mutex_lock s.mStreamMutex, .mutex_unlock] }

/-- The depths at which the `mStreamMutex.lock()` calls of a trace were issued,
in order. -/
def lockDepths : List Event → List Nat
  | [] => []
  | .mutex_lock d :: t => d :: lockDepths t
  | _ :: t => lockDepths t

/-- Every lock of the trace was taken while the mutex was free. -/
def locksOnlyWhenFree (t : List Event) : Bool := (lockDepths t).all (fun d => d == 0)

/-- A reply of a session call that succeeds and leaves the card online. -/
def okReply : Reply := { status := 0, after := onlineWorld }

/-! ## Format checks -/

/-- The case labels of the three format checks. Their values are defined
outside the stream source and are taken as parameters. -/
structure FormatConstants where
  SAMPLINGRATE_8K : Nat
  SAMPLINGRATE_16K : Nat
  SAMPLINGRATE_22K : Nat
  SAMPLINGRATE_32K : Nat
  SAMPLINGRATE_44K : Nat
  SAMPLINGRATE_48K : Nat
  SAMPLINGRATE_96K : Nat
  SAMPLINGRATE_192K : Nat
  SAMPLINGRATE_384K : Nat
  CHANNELS_1 : Nat
  CHANNELS_2 : Nat
  CHANNELS_3 : Nat
  CHANNELS_4 : Nat
  CHANNELS_5 : Nat
  CHANNELS_5_1 : Nat
  CHANNELS_7 : Nat
  CHANNELS_8 : Nat
  BITWIDTH_16 : Nat
  BITWIDTH_24 : Nat
  BITWIDTH_32 : Nat
  deriving DecidableEq, Repr

/-- The sample rates listed in `isSampleRateSupported`. -/
def FormatConstants.sampleRates (k : FormatConstants) : List Nat :=
  [k.SAMPLINGRATE_8K, k.SAMPLINGRATE_16K, k.SAMPLINGRATE_22K, k.SAMPLINGRATE_32K,
   k.SAMPLINGRATE_44K, k.SAMPLINGRATE_48K, k.SAMPLINGRATE_96K, k.SAMPLINGRATE_192K,
   k.SAMPLINGRATE_384K]

/-- The channel counts listed in `isChannelSupported`. -/
def FormatConstants.channelCounts (k : FormatConstants) : List Nat :=
  [k.CHANNELS_1, k.CHANNELS_2, k.CHANNELS_3, k.CHANNELS_4, k.CHANNELS_5, k.CHANNELS_5_1,
   k.CHANNELS_7, k.CHANNELS_8]

/-- The bit widths listed in `isBitWidthSupported`. -/
def FormatConstants.bitWidths (k : FormatConstants) : List Nat :=
  [k.BITWIDTH_16, k.BITWIDTH_24, k.BITWIDTH_32]

/-- Embedding of `StreamNonTunnel::isSampleRateSupported`: `rc` starts at 0, the
listed cases leave it, and the default case assigns 0. -/
def isSampleRateSupported (k : FormatConstants) (sampleRate : Nat) : Int :=
  let rc : Int := 0
  if sampleRate ∈ k.sampleRates then rc else 0

/-- Embedding of `StreamNonTunnel::isChannelSupported`. -/
def isChannelSupported (k : FormatConstants) (numChannels : Nat) : Int :=
  let rc : Int := 0
  if numChannels ∈ k.channelCounts then rc else - EINVAL

/-- Embedding of `StreamNonTunnel::isBitWidthSupported`. -/
def isBitWidthSupported (k : FormatConstants) (bitWidth : Nat) : Int :=
  let rc : Int := 0
  if bitWidth ∈ k.bitWidths then rc else - EINVAL

/-- The values the constant names spell out: rates in hertz, channel counts one
to eight, widths in bits. -/
def namedFormatConstants : FormatConstants :=
  { SAMPLINGRATE_8K := 8000, SAMPLINGRATE_16K := 16000, SAMPLINGRATE_22K := 22050,
    SAMPLINGRATE_32K := 32000, SAMPLINGRATE_44K := 44100, SAMPLINGRATE_48K := 48000,
    SAMPLINGRATE_96K := 96000, SAMPLINGRATE_192K := 192000, SAMPLINGRATE_384K := 384000,
    CHANNELS_1 := 1, CHANNELS_2 := 2, CHANNELS_3 := 3, CHANNELS_4 := 4, CHANNELS_5 := 5,
    CHANNELS_5_1 := 6, CHANNELS_7 := 7, CHANNELS_8 := 8,
    BITWIDTH_16 := 16, BITWIDTH_24 := 24, BITWIDTH_32 := 32 }

/-- Every session call returns 0 and leaves the card online, but `errno` still
reads -ENETRESET after session start. -/
def staleResetEnv : Env :=
  { okEnv with sessionStart := { status := 0, after := resetWorld } }

/-- A one-gibibyte request: `size = 2 ^ 30`. -/
def buf2pow30 : pal_buffer := { buffer := [], size := 1073741824 }

/-! ## Lifecycle contracts -/

/-- C1: open() returns -EIO without a session call and without changing
currentState when the card is offline; with the card online it opens the session
once from IDLE (INIT and 0 on success, the session status and IDLE on failure),
is a no-op returning 0 from INIT, and returns -EINVAL with no session call and
no state change from STARTED, PAUSED or STOPPED. -/
theorem C1_open_contract (s : StreamNonTunnel) (w : World) (e : Env) :
    (w.cardState = CARD_STATUS_OFFLINE →
      (s.open w e).status = - EIO ∧ sessionCalls (s.open w e).trace = [] ∧
      (s.open w e).stream.currentState = s.currentState) ∧
    (w.cardState = CARD_STATUS_ONLINE → s.currentState = STREAM_IDLE →
      sessionCalls (s.open w e).trace = [Event.session_open] ∧
      (e.sessionOpen.status = 0 →
        (s.open w e).status = 0 ∧ (s.open w e).stream.currentState = STREAM_INIT) ∧
      (e.sessionOpen.status ≠ 0 →
        (s.open w e).status = e.sessionOpen.status ∧
        (s.open w e).stream.currentState = STREAM_IDLE)) ∧
    (w.cardState = CARD_STATUS_ONLINE → s.currentState = STREAM_INIT →
      (s.open w e).status = 0 ∧ sessionCalls (s.open w e).trace = [] ∧
      (s.open w e).stream.currentState = STREAM_INIT) ∧
    (w.cardState = CARD_STATUS_ONLINE →
      (s.currentState = STREAM_STARTED ∨ s.currentState = STREAM_PAUSED ∨
        s.currentState = STREAM_STOPPED) →
      (s.open w e).status = - EINVAL ∧ sessionCalls (s.open w e).trace = [] ∧
      (s.open w e).stream.currentState = s.currentState) := by
  refine ⟨?_, ?_, ?_, ?_⟩
  · intro hc
    simp [StreamNonTunnel.open, hc, sessionCalls, Event.isSessionCall,
      StreamNonTunnel.lock, StreamNonTunnel.unlock]
  · intro hc hs
    refine ⟨?_, ?_, ?_⟩
    · by_cases h0 : e.sessionOpen.status = 0 <;>
        simp [StreamNonTunnel.open, hc, hs, h0, sessionCalls, Event.isSessionCall,
          StreamNonTunnel.lock, StreamNonTunnel.unlock]
    · intro h0
      simp [StreamNonTunnel.open, hc, hs, h0, StreamNonTunnel.lock, StreamNonTunnel.unlock]
    · intro h0
      simp [StreamNonTunnel.open, hc, hs, h0, StreamNonTunnel.lock, StreamNonTunnel.unlock]
  · intro hc hs
    simp [StreamNonTunnel.open, hc, hs, sessionCalls, Event.isSessionCall,
      StreamNonTunnel.lock, StreamNonTunnel.unlock]
  · intro hc hs
    rcases hs with hs | hs | hs <;>
      simp [StreamNonTunnel.open, hc, hs, sessionCalls, Event.isSessionCall,
        StreamNonTunnel.lock, StreamNonTunnel.unlock]

/-- Witness for C1: the four cases at concrete streams. -/
theorem C1_open_contract_witness :
    ((streamIn STREAM_STARTED).open offlineWorld okEnv).status = - EIO ∧
    ((streamIn STREAM_IDLE).open onlineWorld okEnv).stream.currentState = STREAM_INIT ∧
    ((streamIn STREAM_INIT).open onlineWorld okEnv).status = 0 ∧
    ((streamIn STREAM_STOPPED).open onlineWorld okEnv).status = - EINVAL :=
  ⟨((C1_open_contract (streamIn STREAM_STARTED) offlineWorld okEnv).1 rfl).1,
   (((C1_open_contract (streamIn STREAM_IDLE) onlineWorld okEnv).2.1 rfl rfl).2.1 rfl).2,
   ((C1_open_contract (streamIn STREAM_INIT) onlineWorld okEnv).2.2.1 rfl rfl).1,
   ((C1_open_contract (streamIn STREAM_STOPPED) onlineWorld okEnv).2.2.2 rfl
      (Or.inr (Or.inr rfl))).1⟩

/-- C2: with the card online and no transport reset signalled, start() from
INIT or STOPPED calls session prepare then session start; both succeeding gives
0 and STARTED; a failing prepare skips session start; a failing call has its
status returned and currentState kept; from STARTED it is a no-op returning 0;
from IDLE or PAUSED it returns -EINVAL with no session call and no change. -/
theorem C2_start_contract (s : StreamNonTunnel) (w : World) (e : Env)
    (hcard : w.cardState = CARD_STATUS_ONLINE)
    (hreset : e.sessionStart.after.errno ≠ - ENETRESET) :
    ((s.currentState = STREAM_INIT ∨ s.currentState = STREAM_STOPPED) →
      (e.sessionPrepare.status = 0 →
        sessionCalls (s.start w e).trace = [Event.session_prepare, Event.session_start]) ∧
      (e.sessionPrepare.status = 0 → e.sessionStart.status = 0 →
        (s.start w e).status = 0 ∧ (s.start w e).stream.currentState = STREAM_STARTED) ∧
      (e.sessionPrepare.status ≠ 0 →
        sessionCalls (s.start w e).trace = [Event.session_prepare] ∧
        (s.start w e).status = e.sessionPrepare.status ∧
        (s.start w e).stream.currentState = s.currentState) ∧
      (e.sessionPrepare.status = 0 → e.sessionStart.status ≠ 0 →
        (s.start w e).status = e.sessionStart.status ∧
        (s.start w e).stream.currentState = s.currentState)) ∧
    (s.currentState = STREAM_STARTED →
      (s.start w e).status = 0 ∧ sessionCalls (s.start w e).trace = [] ∧
      (s.start w e).stream.currentState = STREAM_STARTED) ∧
    ((s.currentState = STREAM_IDLE ∨ s.currentState = STREAM_PAUSED) →
      (s.start w e).status = - EINVAL ∧ sessionCalls (s.start w e).trace = [] ∧
      (s.start w e).stream.currentState = s.currentState) := by
  have hr : transportReset e.sessionStart.after = false := by
    simp [transportReset, hreset]
  refine ⟨?_, ?_, ?_⟩
  · intro hs
    refine ⟨?_, ?_, ?_, ?_⟩
    · intro hp
      by_cases h0 : e.sessionStart.status = 0 <;> rcases hs with hs | hs <;>
        simp [StreamNonTunnel.start, hcard, hs, hp, hr, h0, sessionCalls,
          Event.isSessionCall, StreamNonTunnel.lock, StreamNonTunnel.unlock]
    · intro hp h0
      rcases hs with hs | hs <;>
        simp [StreamNonTunnel.start, hcard, hs, hp, hr, h0,
          StreamNonTunnel.lock, StreamNonTunnel.unlock]
    · intro hp
      rcases hs with hs | hs <;>
        simp [StreamNonTunnel.start, hcard, hs, hp, sessionCalls,
          Event.isSessionCall, StreamNonTunnel.lock, StreamNonTunnel.unlock]
    · intro hp h0
      rcases hs with hs | hs <;>
        simp [StreamNonTunnel.start, hcard, hs, hp, hr, h0,
          StreamNonTunnel.lock, StreamNonTunnel.unlock]
  · intro hs
    simp [StreamNonTunnel.start, hcard, hs, sessionCalls, Event.isSessionCall,
      StreamNonTunnel.lock, StreamNonTunnel.unlock]
  · intro hs
    rcases hs with hs | hs <;>
      simp [StreamNonTunnel.start, hcard, hs, sessionCalls, Event.isSessionCall,
        StreamNonTunnel.lock, StreamNonTunnel.unlock]

/-- Witness for C2: each case of the start() contract at a concrete stream. -/
theorem C2_start_contract_witness :
    ((streamIn STREAM_INIT).start onlineWorld okEnv).stream.currentState = STREAM_STARTED ∧
    sessionCalls ((streamIn STREAM_STOPPED).start onlineWorld okEnv).trace
      = [Event.session_prepare, Event.session_start] ∧
    sessionCalls ((streamIn STREAM_INIT).start onlineWorld prepareFailsEnv).trace
      = [Event.session_prepare] ∧
    ((streamIn STREAM_STOPPED).start onlineWorld startFailsEnv).status = -5 ∧
    ((streamIn STREAM_STARTED).start onlineWorld okEnv).status = 0 ∧
    ((streamIn STREAM_IDLE).start onlineWorld okEnv).status = - EINVAL :=
  ⟨(((C2_start_contract (streamIn STREAM_INIT) onlineWorld okEnv rfl (by decide)).1
      (Or.inl rfl)).2.1 rfl rfl).2,
   ((C2_start_contract (streamIn STREAM_STOPPED) onlineWorld okEnv rfl (by decide)).1
      (Or.inr rfl)).1 rfl,
   (((C2_start_contract (streamIn STREAM_INIT) onlineWorld prepareFailsEnv rfl
      (by decide)).1 (Or.inl rfl)).2.2.1 (by decide)).1,
   (((C2_start_contract (streamIn STREAM_STOPPED) onlineWorld startFailsEnv rfl
      (by decide)).1 (Or.inr rfl)).2.2.2 rfl (by decide)).1,
   ((C2_start_contract (streamIn STREAM_STARTED) onlineWorld okEnv rfl (by decide)).2.1
      rfl).1,
   ((C2_start_contract (streamIn STREAM_IDLE) onlineWorld okEnv rfl (by decide)).2.2
      (Or.inl rfl)).1⟩

/-- C3: stop() calls session stop exactly once and moves to STOPPED from STARTED
or PAUSED; returns 0 with no session call and no change from STOPPED or IDLE;
returns -EINVAL with no session call and no change from INIT; it never changes
cachedState. The card state plays no part. -/
theorem C3_stop_contract (s : StreamNonTunnel) (w : World) (e : Env) :
    ((s.currentState = STREAM_STARTED ∨ s.currentState = STREAM_PAUSED) →
      sessionCalls (s.stop w e).trace = [Event.session_stop] ∧
      (s.stop w e).stream.currentState = STREAM_STOPPED) ∧
    ((s.currentState = STREAM_STOPPED ∨ s.currentState = STREAM_IDLE) →
      (s.stop w e).status = 0 ∧ sessionCalls (s.stop w e).trace = [] ∧
      (s.stop w e).stream.currentState = s.currentState) ∧
    (s.currentState = STREAM_INIT →
      (s.stop w e).status = - EINVAL ∧ sessionCalls (s.stop w e).trace = [] ∧
      (s.stop w e).stream.currentState = s.currentState) ∧
    (s.stop w e).stream.cachedState = s.cachedState := by
  refine ⟨?_, ?_, ?_, ?_⟩
  · intro hs
    rcases hs with hs | hs <;>
      simp [StreamNonTunnel.stop, hs, sessionCalls, Event.isSessionCall,
        StreamNonTunnel.lock, StreamNonTunnel.unlock]
  · intro hs
    rcases hs with hs | hs <;>
      simp [StreamNonTunnel.stop, hs, sessionCalls, Event.isSessionCall,
        StreamNonTunnel.lock, StreamNonTunnel.unlock]
  · intro hs
    simp [StreamNonTunnel.stop, hs, sessionCalls, Event.isSessionCall,
      StreamNonTunnel.lock, StreamNonTunnel.unlock]
  · simp only [StreamNonTunnel.stop]
    split_ifs <;> simp [StreamNonTunnel.lock, StreamNonTunnel.unlock]

/-- Witness for C3: stop() from STARTED, from IDLE (card offline) and from INIT. -/
theorem C3_stop_contract_witness :
    ((streamIn STREAM_STARTED).stop onlineWorld okEnv).stream.currentState = STREAM_STOPPED ∧
    (((streamIn STREAM_IDLE).stop offlineWorld okEnv).status = 0 ∧
      ((streamIn STREAM_IDLE).stop offlineWorld okEnv).stream.currentState = STREAM_IDLE) ∧
    ((streamIn STREAM_INIT).stop onlineWorld okEnv).status = - EINVAL :=
  ⟨((C3_stop_contract (streamIn STREAM_STARTED) onlineWorld okEnv).1 (Or.inl rfl)).2,
   ⟨((C3_stop_contract (streamIn STREAM_IDLE) offlineWorld okEnv).2.1 (Or.inr rfl)).1,
    ((C3_stop_contract (streamIn STREAM_IDLE) offlineWorld okEnv).2.1 (Or.inr rfl)).2.2⟩,
   ((C3_stop_contract (streamIn STREAM_INIT) onlineWorld okEnv).2.2.1 rfl).1⟩

/-- C4 at its failing input: on the STARTED stream reached by open() and
start(), with the mutex free, close() takes the stream mutex and calls stop()
while holding it. The lock() of stop() never returns, so close() does not
return: there is no session stop, no session close and no deregistration, the
state stays STARTED and the session is kept. ssrDownHandler() on the same
stream releases the mutex around stop(), returns, and runs session stop then
session close. -/
theorem C4_close_from_started_never_returns :
    (runLifecycle (freshStream stereo48k) openThenStart).currentState = STREAM_STARTED ∧
    (runLifecycle (freshStream stereo48k) openThenStart).mStreamMutex = 0 ∧
    ((runLifecycle (freshStream stereo48k) openThenStart).close onlineWorld
      okEnv).returns = false ∧
    ((runLifecycle (freshStream stereo48k) openThenStart).close onlineWorld okEnv).trace
      = [Event.mutex_lock 0, Event.mutex_lock 1] ∧
    ((runLifecycle (freshStream stereo48k) openThenStart).close onlineWorld
      okEnv).trace.count Event.deregisterStream = 0 ∧
    ((runLifecycle (freshStream stereo48k) openThenStart).close onlineWorld
      okEnv).stream.currentState = STREAM_STARTED ∧
    ((runLifecycle (freshStream stereo48k) openThenStart).close onlineWorld
      okEnv).stream.session = true ∧
    ((runLifecycle (freshStream stereo48k) openThenStart).ssrDownHandler onlineWorld
      okEnv).returns = true ∧
    sessionCalls ((runLifecycle (freshStream stereo48k) openThenStart).ssrDownHandler
      onlineWorld okEnv).trace = [Event.session_stop, Event.session_close] := by
  decide

/-- From IDLE, INIT or STOPPED, close() returns, whatever the card state and the
results of session close and deregisterStream: it ends in IDLE, deregisters
exactly once, releases the session, and calls session close once unless the
starting state is IDLE. It returns exactly when the starting state is neither
STARTED nor PAUSED. -/
theorem close_teardown_when_it_returns (s : StreamNonTunnel) (w : World) (e : Env) :
    ((s.close w e).returns = true ↔
      (s.currentState ≠ STREAM_STARTED ∧ s.currentState ≠ STREAM_PAUSED)) ∧
    ((s.currentState ≠ STREAM_STARTED ∧ s.currentState ≠ STREAM_PAUSED) →
      (s.close w e).stream.currentState = STREAM_IDLE ∧
      (s.close w e).trace.count Event.deregisterStream = 1 ∧
      ((s.close w e).stream.session = false ∧
        (s.close w e).trace.count Event.delete_session = 1) ∧
      (s.currentState ≠ STREAM_IDLE →
        (s.close w e).trace.count Event.session_close = 1) ∧
      (s.currentState = STREAM_IDLE →
        (s.close w e).trace.count Event.session_close = 0)) := by
  rcases s with ⟨cur, cached, sess, attr, depth⟩
  cases cur <;>
    simp [StreamNonTunnel.close, StreamNonTunnel.closeExit, StreamNonTunnel.blockedAtLock,
      StreamNonTunnel.lock, StreamNonTunnel.unlock, List.count_cons]

/-- C5 as stated fails: on the freshly constructed stream (state IDLE), with
the card offline, start() returns 0, which is not a negative error code. -/
theorem C5_start_offline_counterexample :
    (runLifecycle (freshStream stereo48k) []).currentState = STREAM_IDLE ∧
    ((runLifecycle (freshStream stereo48k) []).start offlineWorld okEnv).status = 0 ∧
    ¬ ((runLifecycle (freshStream stereo48k) []).start offlineWorld okEnv).status < 0 := by
  decide

/-- C5 (amended): after any sequence of open/start/stop/close calls on a fresh
stream, under any card states and session results, open() in STARTED, PAUSED or
STOPPED, start() in IDLE or PAUSED with the card online, and stop() in INIT each
return a negative error code and leave currentState unchanged; currentState is
always one of the five lifecycle states. -/
theorem C5_illegal_transitions (attr : pal_stream_attributes) (steps : List LifecycleStep)
    (w : World) (e : Env) :
    ((runLifecycle (freshStream attr) steps).currentState = STREAM_STARTED ∨
      (runLifecycle (freshStream attr) steps).currentState = STREAM_PAUSED ∨
      (runLifecycle (freshStream attr) steps).currentState = STREAM_STOPPED →
        ((runLifecycle (freshStream attr) steps).open w e).status < 0 ∧
        ((runLifecycle (freshStream attr) steps).open w e).stream.currentState
          = (runLifecycle (freshStream attr) steps).currentState) ∧
    (w.cardState = CARD_STATUS_ONLINE →
      (runLifecycle (freshStream attr) steps).currentState = STREAM_IDLE ∨
      (runLifecycle (freshStream attr) steps).currentState = STREAM_PAUSED →
        ((runLifecycle (freshStream attr) steps).start w e).status < 0 ∧
        ((runLifecycle (freshStream attr) steps).start w e).stream.currentState
          = (runLifecycle (freshStream attr) steps).currentState) ∧
    ((runLifecycle (freshStream attr) steps).currentState = STREAM_INIT →
        ((runLifecycle (freshStream attr) steps).stop w e).status < 0 ∧
        ((runLifecycle (freshStream attr) steps).stop w e).stream.currentState
          = (runLifecycle (freshStream attr) steps).currentState) ∧
    ((runLifecycle (freshStream attr) steps).currentState = STREAM_IDLE ∨
      (runLifecycle (freshStream attr) steps).currentState = STREAM_INIT ∨
      (runLifecycle (freshStream attr) steps).currentState = STREAM_STARTED ∨
      (runLifecycle (freshStream attr) steps).currentState = STREAM_PAUSED ∨
      (runLifecycle (freshStream attr) steps).currentState = STREAM_STOPPED) := by
  generalize runLifecycle (freshStream attr) steps = s
  refine ⟨?_, ?_, ?_, ?_⟩
  · intro hs
    cases hw : w.cardState <;> rcases hs with hs | hs | hs <;>
      simp [StreamNonTunnel.open, hw, hs, StreamNonTunnel.lock, StreamNonTunnel.unlock,
        EIO, EINVAL]
  · intro hw hs
    rcases hs with hs | hs <;>
      simp [StreamNonTunnel.start, hw, hs, StreamNonTunnel.lock, StreamNonTunnel.unlock,
        EINVAL]
  · intro hs
    simp [StreamNonTunnel.stop, hs, StreamNonTunnel.lock, StreamNonTunnel.unlock, EINVAL]
  · cases s.currentState <;> simp

/-- Witness for C5: after open and start the stream is STARTED and open() is
refused; after open alone stop() is refused; on the fresh stream start() is
refused while the card is online. -/
theorem C5_illegal_transitions_witness :
    (((runLifecycle (freshStream stereo48k) openThenStart).open onlineWorld okEnv).status < 0 ∧
      ((runLifecycle (freshStream stereo48k) openThenStart).open onlineWorld okEnv).stream.currentState
        = (runLifecycle (freshStream stereo48k) openThenStart).currentState) ∧
    (((runLifecycle (freshStream stereo48k) []).start onlineWorld okEnv).status < 0 ∧
      ((runLifecycle (freshStream stereo48k) []).start onlineWorld okEnv).stream.currentState
        = (runLifecycle (freshStream stereo48k) []).currentState) ∧
    (((runLifecycle (freshStream stereo48k) (openThenStart.take 1)).stop onlineWorld okEnv).status < 0 ∧
      ((runLifecycle (freshStream stereo48k) (openThenStart.take 1)).stop onlineWorld okEnv).stream.currentState
        = (runLifecycle (freshStream stereo48k) (openThenStart.take 1)).currentState) :=
  ⟨(C5_illegal_transitions stereo48k openThenStart onlineWorld okEnv).1 (Or.inl (by decide)),
   (C5_illegal_transitions stereo48k [] onlineWorld okEnv).2.1 rfl (Or.inl (by decide)),
   (C5_illegal_transitions stereo48k (openThenStart.take 1) onlineWorld okEnv).2.2.1
      (by decide)⟩

/-! ## Data path while the card is offline -/

/-- An in-range unsigned size converts to the same `int32_t` value. -/
theorem toInt32_of_lt (n : Nat) (h : n < 2 ^ 31) : toInt32 n = (n : Int) := by
  have h32 : n % 2 ^ 32 = n := Nat.mod_eq_of_lt (by omega)
  simp only [toInt32, h32]
  rw [if_pos h]

/-- A non-negative value below `2 ^ 64` converts to the same `uint64_t` value. -/
theorem toUInt64_natCast (n : Nat) (h : n < 2 ^ 64) : toUInt64 (n : Int) = n := by
  unfold toUInt64
  have hmod : ((n : Int) % 2 ^ 64) = (n : Int) :=
    Int.emod_eq_of_lt (by omega) (by exact_mod_cast h)
  rw [hmod]; simp

/-- The function `memsetZero` keeps the length of the buffer. -/
theorem memsetZero_length (b : List Nat) (n : Nat) :
    (memsetZero b n).length = b.length := by
  simp [memsetZero]; omega

/-- After `memsetZero b n` the first `n` bytes are zero. -/
theorem memsetZero_take (b : List Nat) (n : Nat) :
    ∀ x ∈ (memsetZero b n).take n, x = 0 := by
  intro x hx
  unfold memsetZero at hx
  by_cases hn : n ≤ b.length
  · rw [min_eq_left hn, List.take_append_of_le_length (by simp)] at hx
    exact List.eq_of_mem_replicate (List.mem_of_mem_take hx)
  · have hd : b.drop n = [] := List.drop_eq_nil_of_le (by omega)
    rw [hd, List.append_nil] at hx
    exact List.eq_of_mem_replicate (List.mem_of_mem_take hx)

/-- C6 as stated fails: with the card offline and a valid configuration (frame
size 4, 48 kHz), write() of a buffer whose size is 2^31 returns -2147483648, not
the requested size, because the size is converted to int32_t. -/
theorem C6_large_size_counterexample :
    offlineWorld.cardState = CARD_STATUS_OFFLINE ∧
    frameSize (streamIn STREAM_STARTED).mStreamAttr.out_media_config = 4 ∧
    (streamIn STREAM_STARTED).mStreamAttr.out_media_config.sample_rate = 48000 ∧
    ((streamIn STREAM_STARTED).write offlineWorld okEnv hugeBuffer).status = -2147483648 ∧
    ((streamIn STREAM_STARTED).write offlineWorld okEnv hugeBuffer).status
      ≠ (hugeBuffer.size : Int) := by
  decide

/-- C6 (amended): whenever the card is offline or cachedState is not IDLE, the
frame size and sample rate of the direction are non-zero and buf.size is below
2^31, read() and write() return exactly buf.size in every currentState, make no
session call and change neither currentState nor cachedState; read() leaves the
first buf.size bytes of the buffer zero. -/
theorem C6_offline_data_path (s : StreamNonTunnel) (w : World) (e : Env) (buf : pal_buffer)
    (hoff : w.cardState = CARD_STATUS_OFFLINE ∨ s.cachedState ≠ STREAM_IDLE)
    (hsize : buf.size < 2 ^ 31) :
    (frameSize s.mStreamAttr.in_media_config ≠ 0 →
      s.mStreamAttr.in_media_config.sample_rate ≠ 0 →
        (s.read w e buf).status = (buf.size : Int) ∧
        sessionCalls (s.read w e buf).trace = [] ∧
        (s.read w e buf).stream.currentState = s.currentState ∧
        (s.read w e buf).stream.cachedState = s.cachedState ∧
        (∀ x ∈ (s.read w e buf).buffer.take buf.size, x = 0) ∧
        (s.read w e buf).buffer.length = buf.buffer.length) ∧
    (frameSize s.mStreamAttr.out_media_config ≠ 0 →
      s.mStreamAttr.out_media_config.sample_rate ≠ 0 →
        (s.write w e buf).status = (buf.size : Int) ∧
        sessionCalls (s.write w e buf).trace = [] ∧
        (s.write w e buf).stream.currentState = s.currentState ∧
        (s.write w e buf).stream.cachedState = s.cachedState) := by
  have h32 := toInt32_of_lt buf.size hsize
  have h64 : toUInt64 (buf.size : Int) = buf.size := toUInt64_natCast buf.size (by omega)
  constructor
  · intro hf hr
    have hread : s.read w e buf =
        { status := (buf.size : Int), stream := s, world := w,
          trace := [.memset buf.size,
            .usleep (sleepMicros buf.size (frameSize s.mStreamAttr.in_media_config)
              s.mStreamAttr.in_media_config.sample_rate)],
          buffer := memsetZero buf.buffer buf.size } := by
      simp [StreamNonTunnel.read, hoff, hf, hr, h32, h64]
    rw [hread]
    exact ⟨rfl, by simp [sessionCalls, Event.isSessionCall], rfl, rfl,
      memsetZero_take buf.buffer buf.size, memsetZero_length buf.buffer buf.size⟩
  · intro hf hr
    simp [StreamNonTunnel.write, hoff, hf, hr, h32, sessionCalls, Event.isSessionCall,
      StreamNonTunnel.lock, StreamNonTunnel.unlock]

/-- Witness for C6: read() and write() of 4096 bytes on a STARTED stream while
the card is offline. -/
theorem C6_offline_data_path_witness :
    ((streamIn STREAM_STARTED).read offlineWorld okEnv buf4096).status = 4096 ∧
    ((streamIn STREAM_STARTED).write offlineWorld okEnv buf4096).status = 4096 :=
  ⟨((C6_offline_data_path (streamIn STREAM_STARTED) offlineWorld okEnv buf4096
      (Or.inl rfl) (by decide)).1 (by decide) (by decide)).1,
   ((C6_offline_data_path (streamIn STREAM_STARTED) offlineWorld okEnv buf4096
      (Or.inl rfl) (by decide)).2 (by decide) (by decide)).1⟩

/-- C7 as stated fails: with the card online, cachedState IDLE and the stream
STARTED, a zero frame size and zero sample rate are not rejected; read() and
write() call the session and return the byte count it reports. -/
theorem C7_online_zero_config_counterexample :
    frameSize startedZeroConfig.mStreamAttr.in_media_config = 0 ∧
    frameSize startedZeroConfig.mStreamAttr.out_media_config = 0 ∧
    (startedZeroConfig.read onlineWorld okEnv buf4096).status = 1024 ∧
    sessionCalls (startedZeroConfig.read onlineWorld okEnv buf4096).trace
      = [Event.session_read] ∧
    (startedZeroConfig.write onlineWorld okEnv buf4096).status = 1024 ∧
    sessionCalls (startedZeroConfig.write onlineWorld okEnv buf4096).trace
      = [Event.session_write] ∧
    (startedZeroConfig.read onlineWorld okEnv buf4096).status ≠ - EINVAL := by
  decide

/-- C7 (amended): when the card is offline or cachedState is not IDLE, then in
every currentState a zero frame size or zero sample rate makes read() and
write() return -EINVAL without invoking the session; with the card online and
cachedState IDLE the configuration is not consulted: status and calls of read()
and write() are the same for every configuration. -/
theorem C7_zero_config (s : StreamNonTunnel) (w : World) (e : Env) (buf : pal_buffer) :
    (w.cardState = CARD_STATUS_OFFLINE ∨ s.cachedState ≠ STREAM_IDLE →
      (frameSize s.mStreamAttr.in_media_config = 0 ∨
          s.mStreamAttr.in_media_config.sample_rate = 0 →
        (s.read w e buf).status = - EINVAL ∧ sessionCalls (s.read w e buf).trace = []) ∧
      (frameSize s.mStreamAttr.out_media_config = 0 ∨
          s.mStreamAttr.out_media_config.sample_rate = 0 →
        (s.write w e buf).status = - EINVAL ∧ sessionCalls (s.write w e buf).trace = [])) ∧
    (w.cardState = CARD_STATUS_ONLINE → s.cachedState = STREAM_IDLE →
      ∀ attr : pal_stream_attributes,
        (StreamNonTunnel.read { s with mStreamAttr := attr } w e buf).status
          = (s.read w e buf).status ∧
        (StreamNonTunnel.read { s with mStreamAttr := attr } w e buf).trace
          = (s.read w e buf).trace ∧
        (StreamNonTunnel.write { s with mStreamAttr := attr } w e buf).status
          = (s.write w e buf).status ∧
        (StreamNonTunnel.write { s with mStreamAttr := attr } w e buf).trace
          = (s.write w e buf).trace) := by
  constructor
  · intro hoff
    constructor
    · intro hz
      simp [StreamNonTunnel.read, hoff, hz, sessionCalls]
    · intro hz
      simp [StreamNonTunnel.write, hoff, hz, sessionCalls, Event.isSessionCall,
        StreamNonTunnel.lock, StreamNonTunnel.unlock]
  · intro hw hc attr
    simp only [StreamNonTunnel.read, StreamNonTunnel.write, hw, hc,
      StreamNonTunnel.lock, StreamNonTunnel.unlock]
    refine ⟨?_, ?_, ?_, ?_⟩ <;> split_ifs <;> simp_all

/-- Witness for C7: the zero configuration is rejected while the card is
offline, and with the card online the zero configuration and the stereo one
give the same read() status. -/
theorem C7_zero_config_witness :
    ((startedZeroConfig.read offlineWorld okEnv buf4096).status = - EINVAL ∧
      sessionCalls (startedZeroConfig.read offlineWorld okEnv buf4096).trace = []) ∧
    ((startedZeroConfig.write offlineWorld okEnv buf4096).status = - EINVAL ∧
      sessionCalls (startedZeroConfig.write offlineWorld okEnv buf4096).trace = []) ∧
    (StreamNonTunnel.read { startedZeroConfig with mStreamAttr := stereo48k }
        onlineWorld okEnv buf4096).status
      = (startedZeroConfig.read onlineWorld okEnv buf4096).status :=
  ⟨((C7_zero_config startedZeroConfig offlineWorld okEnv buf4096).1 (Or.inl rfl)).1
      (Or.inl (by decide)),
   ((C7_zero_config startedZeroConfig offlineWorld okEnv buf4096).1 (Or.inl rfl)).2
      (Or.inl (by decide)),
   ((C7_zero_config startedZeroConfig onlineWorld okEnv buf4096).2 rfl rfl stereo48k).1⟩

/-! ## Transport reset and offline start -/

/-- C8 as stated fails: on a transport reset, write() of a buffer whose size is
2^31 returns -2147483648, not the requested size. -/
theorem C8_large_size_counterexample :
    onlineWorld.cardState = CARD_STATUS_ONLINE ∧
    (streamIn STREAM_STARTED).cachedState = STREAM_IDLE ∧
    (streamIn STREAM_STARTED).currentState = STREAM_STARTED ∧
    resetEnv.sessionWrite.status ≠ 0 ∧
    resetEnv.sessionWrite.after.errno = - ENETRESET ∧
    resetEnv.sessionWrite.after.cardState = CARD_STATUS_ONLINE ∧
    ((streamIn STREAM_STARTED).write onlineWorld resetEnv hugeBuffer).status = -2147483648 ∧
    ((streamIn STREAM_STARTED).write onlineWorld resetEnv hugeBuffer).status
      ≠ (hugeBuffer.size : Int) := by
  decide

/-- C8 (amended): with the card online, cachedState IDLE, currentState STARTED
and buf.size below 2^31, when the session read (resp. write) fails: if the
transport reset indicator is set and the card is still marked online, read()
(resp. write()) calls ssrHandler(offline) exactly once and returns buf.size; if
the card is found offline it returns buf.size without calling ssrHandler.
currentState is unchanged in both cases. -/
theorem C8_transport_reset_data_path (s : StreamNonTunnel) (w : World) (e : Env)
    (buf : pal_buffer)
    (hcard : w.cardState = CARD_STATUS_ONLINE)
    (hcached : s.cachedState = STREAM_IDLE)
    (hstate : s.currentState = STREAM_STARTED)
    (hsize : buf.size < 2 ^ 31) :
    (e.sessionRead.status ≠ 0 →
      (e.sessionRead.after.errno = - ENETRESET →
        e.sessionRead.after.cardState = CARD_STATUS_ONLINE →
          (s.read w e buf).trace.count (Event.ssrHandler CARD_STATUS_OFFLINE) = 1 ∧
          (s.read w e buf).status = (buf.size : Int) ∧
          (s.read w e buf).stream.currentState = s.currentState) ∧
      (e.sessionRead.after.cardState = CARD_STATUS_OFFLINE →
          (∀ c, Event.ssrHandler c ∉ (s.read w e buf).trace) ∧
          (s.read w e buf).status = (buf.size : Int) ∧
          (s.read w e buf).stream.currentState = s.currentState)) ∧
    (e.sessionWrite.status ≠ 0 →
      (e.sessionWrite.after.errno = - ENETRESET →
        e.sessionWrite.after.cardState = CARD_STATUS_ONLINE →
          (s.write w e buf).trace.count (Event.ssrHandler CARD_STATUS_OFFLINE) = 1 ∧
          (s.write w e buf).status = (buf.size : Int) ∧
          (s.write w e buf).stream.currentState = s.currentState) ∧
      (e.sessionWrite.after.cardState = CARD_STATUS_OFFLINE →
          (∀ c, Event.ssrHandler c ∉ (s.write w e buf).trace) ∧
          (s.write w e buf).status = (buf.size : Int) ∧
          (s.write w e buf).stream.currentState = s.currentState)) := by
  have h32 := toInt32_of_lt buf.size hsize
  refine ⟨fun hst => ⟨fun herr hon => ?_, fun hoff => ?_⟩,
          fun hst => ⟨fun herr hon => ?_, fun hoff => ?_⟩⟩
  · simp [StreamNonTunnel.read, hcard, hcached, hstate, hst, transportReset, herr, hon,
      h32, List.count_cons]
  · simp [StreamNonTunnel.read, hcard, hcached, hstate, hst, transportReset, hoff, h32]
  · simp [StreamNonTunnel.write, hcard, hcached, hstate, hst, transportReset, herr, hon,
      h32, List.count_cons, StreamNonTunnel.lock, StreamNonTunnel.unlock]
  · simp [StreamNonTunnel.write, hcard, hcached, hstate, hst, transportReset, hoff, h32,
      StreamNonTunnel.lock, StreamNonTunnel.unlock]

/-- Witness for C8: a reset during read() and write(), and a card found offline
during read() and write(), each with a 4096-byte buffer. -/
theorem C8_transport_reset_data_path_witness :
    ((streamIn STREAM_STARTED).read onlineWorld resetEnv buf4096).status = 4096 ∧
    ((streamIn STREAM_STARTED).read onlineWorld wentOfflineEnv buf4096).status = 4096 ∧
    ((streamIn STREAM_STARTED).write onlineWorld resetEnv buf4096).trace.count
      (Event.ssrHandler CARD_STATUS_OFFLINE) = 1 ∧
    ((streamIn STREAM_STARTED).write onlineWorld wentOfflineEnv buf4096).status = 4096 :=
  ⟨(((C8_transport_reset_data_path (streamIn STREAM_STARTED) onlineWorld resetEnv buf4096
      rfl rfl rfl (by decide)).1 (by decide)).1 rfl rfl).2.1,
   (((C8_transport_reset_data_path (streamIn STREAM_STARTED) onlineWorld wentOfflineEnv
      buf4096 rfl rfl rfl (by decide)).1 (by decide)).2 rfl).2.1,
   (((C8_transport_reset_data_path (streamIn STREAM_STARTED) onlineWorld resetEnv buf4096
      rfl rfl rfl (by decide)).2 (by decide)).1 rfl rfl).1,
   (((C8_transport_reset_data_path (streamIn STREAM_STARTED) onlineWorld wentOfflineEnv
      buf4096 rfl rfl rfl (by decide)).2 (by decide)).2 rfl).2.1⟩

/-- C9: start() while the card is offline returns 0, sets cachedState to
STARTED, keeps currentState, and makes neither a session call nor a graph-lock
call, whatever currentState and cachedState were. -/
theorem C9_start_offline (s : StreamNonTunnel) (w : World) (e : Env)
    (hcard : w.cardState = CARD_STATUS_OFFLINE) :
    (s.start w e).status = 0 ∧
    (s.start w e).stream.cachedState = STREAM_STARTED ∧
    (s.start w e).stream.currentState = s.currentState ∧
    sessionCalls (s.start w e).trace = [] ∧
    graphLockCalls (s.start w e).trace = [] := by
  simp [StreamNonTunnel.start, hcard, sessionCalls, graphLockCalls, Event.isSessionCall,
    Event.isGraphLockCall, StreamNonTunnel.lock, StreamNonTunnel.unlock]

/-- Witness for C9: start() on an INIT stream while the card is offline. -/
theorem C9_start_offline_witness :
    ((streamIn STREAM_INIT).start offlineWorld okEnv).status = 0 ∧
    ((streamIn STREAM_INIT).start offlineWorld okEnv).stream.cachedState = STREAM_STARTED ∧
    ((streamIn STREAM_INIT).start offlineWorld okEnv).stream.currentState = STREAM_INIT :=
  ⟨(C9_start_offline (streamIn STREAM_INIT) offlineWorld okEnv rfl).1,
   (C9_start_offline (streamIn STREAM_INIT) offlineWorld okEnv rfl).2.1,
   (C9_start_offline (streamIn STREAM_INIT) offlineWorld okEnv rfl).2.2.1⟩

/-- C10 at its failing input: on an INIT stream with the card online, session
prepare succeeding, and session start returning -5 with the transport reset
indicator set while the card is still online, start() notifies the resource
manager and caches STARTED but returns -5, not 0. The sibling paths do suppress
the error: start() with the card offline returns 0 after caching STARTED, and
write() and read() return the buffer size on the same reset. -/
theorem C10_start_reset_returns_session_status :
    onlineWorld.cardState = CARD_STATUS_ONLINE ∧
    (streamIn STREAM_INIT).currentState = STREAM_INIT ∧
    resetEnv.sessionPrepare.status = 0 ∧
    resetEnv.sessionStart.after.errno = - ENETRESET ∧
    resetEnv.sessionStart.after.cardState = CARD_STATUS_ONLINE ∧
    ((streamIn STREAM_INIT).start onlineWorld resetEnv).trace.count
      (Event.ssrHandler CARD_STATUS_OFFLINE) = 1 ∧
    ((streamIn STREAM_INIT).start onlineWorld resetEnv).stream.cachedState
      = STREAM_STARTED ∧
    ((streamIn STREAM_INIT).start onlineWorld resetEnv).stream.currentState = STREAM_INIT ∧
    ((streamIn STREAM_INIT).start onlineWorld resetEnv).status = -5 ∧
    ((streamIn STREAM_INIT).start onlineWorld resetEnv).status ≠ 0 ∧
    ((streamIn STREAM_INIT).start offlineWorld resetEnv).status = 0 ∧
    ((streamIn STREAM_STARTED).write onlineWorld resetEnv buf4096).status = 4096 ∧
    ((streamIn STREAM_STARTED).read onlineWorld resetEnv buf4096).status = 4096 := by
  decide

/-- The reset branch of start(): with the card online and currentState INIT or
STOPPED, if session prepare succeeds and the transport reset indicator is set
after session start while the card is still marked online, start() calls
ssrHandler(offline) once, sets cachedState to STARTED, leaves currentState
unchanged, and returns with the status of session start still in place. -/
theorem start_reset_branch (s : StreamNonTunnel) (w : World) (e : Env)
    (hcard : w.cardState = CARD_STATUS_ONLINE)
    (hstate : s.currentState = STREAM_INIT ∨ s.currentState = STREAM_STOPPED)
    (hprep : e.sessionPrepare.status = 0)
    (herr : e.sessionStart.after.errno = - ENETRESET)
    (hon : e.sessionStart.after.cardState = CARD_STATUS_ONLINE) :
    (s.start w e).trace.count (Event.ssrHandler CARD_STATUS_OFFLINE) = 1 ∧
    (s.start w e).stream.cachedState = STREAM_STARTED ∧
    (s.start w e).stream.currentState = s.currentState ∧
    (s.start w e).status = e.sessionStart.status := by
  rcases hstate with hs | hs <;>
    simp [StreamNonTunnel.start, hcard, hs, hprep, transportReset, herr, hon,
      List.count_cons, StreamNonTunnel.lock, StreamNonTunnel.unlock]

/-! ## Subsystem-restart handlers -/

/-- C11: after ssrDownHandler(), for every starting state and session result,
cachedState is the prior currentState if the prior cachedState was IDLE and is
otherwise unchanged; the session calls are one close from INIT or STOPPED, stop
then close from STARTED or PAUSED, none from IDLE; currentState is IDLE; the
stream is not deregistered and the session object is not released. -/
theorem C11_ssrDownHandler_postcondition (s : StreamNonTunnel) (w : World) (e : Env) :
    (s.ssrDownHandler w e).stream.cachedState
      = (if s.cachedState = STREAM_IDLE then s.currentState else s.cachedState) ∧
    ((s.currentState = STREAM_INIT ∨ s.currentState = STREAM_STOPPED) →
      sessionCalls (s.ssrDownHandler w e).trace = [Event.session_close]) ∧
    ((s.currentState = STREAM_STARTED ∨ s.currentState = STREAM_PAUSED) →
      sessionCalls (s.ssrDownHandler w e).trace
        = [Event.session_stop, Event.session_close]) ∧
    (s.currentState = STREAM_IDLE → sessionCalls (s.ssrDownHandler w e).trace = []) ∧
    (s.ssrDownHandler w e).stream.currentState = STREAM_IDLE ∧
    Event.deregisterStream ∉ (s.ssrDownHandler w e).trace ∧
    Event.delete_session ∉ (s.ssrDownHandler w e).trace ∧
    (s.ssrDownHandler w e).stream.session = s.session := by
  rcases s with ⟨cur, cached, sess, attr, depth⟩
  cases cur <;> cases cached <;>
    simp [StreamNonTunnel.ssrDownHandler, StreamNonTunnel.stop, StreamNonTunnel.lock,
      StreamNonTunnel.unlock, sessionCalls, Event.isSessionCall]

/-- Witness for C11: the handler on an INIT, a STARTED and an IDLE stream. -/
theorem C11_ssrDownHandler_postcondition_witness :
    sessionCalls ((streamIn STREAM_INIT).ssrDownHandler offlineWorld okEnv).trace
      = [Event.session_close] ∧
    sessionCalls ((streamIn STREAM_STARTED).ssrDownHandler offlineWorld okEnv).trace
      = [Event.session_stop, Event.session_close] ∧
    sessionCalls ((streamIn STREAM_IDLE).ssrDownHandler offlineWorld okEnv).trace = [] :=
  ⟨(C11_ssrDownHandler_postcondition (streamIn STREAM_INIT) offlineWorld okEnv).2.1
      (Or.inl rfl),
   (C11_ssrDownHandler_postcondition (streamIn STREAM_STARTED) offlineWorld okEnv).2.2.1
      (Or.inl rfl),
   (C11_ssrDownHandler_postcondition (streamIn STREAM_IDLE) offlineWorld okEnv).2.2.2.1 rfl⟩

/-- C14: a second ssrDownHandler() issued right after a first one, from any
starting state and with any session results, makes no session call, returns 0
and leaves currentState and cachedState as the first call left them. -/
theorem C14_ssrDownHandler_idempotent (s : StreamNonTunnel) (w1 w2 : World) (e1 e2 : Env) :
    sessionCalls ((s.ssrDownHandler w1 e1).stream.ssrDownHandler w2 e2).trace = [] ∧
    ((s.ssrDownHandler w1 e1).stream.ssrDownHandler w2 e2).status = 0 ∧
    ((s.ssrDownHandler w1 e1).stream.ssrDownHandler w2 e2).stream.currentState
      = (s.ssrDownHandler w1 e1).stream.currentState ∧
    ((s.ssrDownHandler w1 e1).stream.ssrDownHandler w2 e2).stream.cachedState
      = (s.ssrDownHandler w1 e1).stream.cachedState := by
  rcases s with ⟨cur, cached, sess, attr, depth⟩
  cases cur <;> cases cached <;>
    simp [StreamNonTunnel.ssrDownHandler, StreamNonTunnel.stop, StreamNonTunnel.lock,
      StreamNonTunnel.unlock, sessionCalls, Event.isSessionCall]

/-- C13 as stated fails. With every session call returning 0 and the card
online for the replay, a down/up cycle leaves a STOPPED stream IDLE and a
PAUSED stream STARTED; and when errno still reads -ENETRESET after session
start, it leaves a STARTED stream INIT. -/
theorem C13_round_trip_counterexample :
    (streamIn STREAM_STOPPED).cachedState = STREAM_IDLE ∧
    (ssrRoundTrip (streamIn STREAM_STOPPED) offlineWorld okEnv onlineWorld okEnv).currentState
      = STREAM_IDLE ∧
    (ssrRoundTrip (streamIn STREAM_STOPPED) offlineWorld okEnv onlineWorld okEnv).currentState
      ≠ (streamIn STREAM_STOPPED).currentState ∧
    (ssrRoundTrip (streamIn STREAM_PAUSED) offlineWorld okEnv onlineWorld okEnv).currentState
      = STREAM_STARTED ∧
    (ssrRoundTrip (streamIn STREAM_PAUSED) offlineWorld okEnv onlineWorld okEnv).currentState
      ≠ (streamIn STREAM_PAUSED).currentState ∧
    (staleResetEnv.sessionOpen.status = 0 ∧ staleResetEnv.sessionPrepare.status = 0 ∧
      staleResetEnv.sessionStart.status = 0 ∧ staleResetEnv.sessionStop.status = 0 ∧
      staleResetEnv.sessionClose.status = 0) ∧
    (ssrRoundTrip (streamIn STREAM_STARTED) offlineWorld staleResetEnv onlineWorld
      staleResetEnv).currentState = STREAM_INIT ∧
    (ssrRoundTrip (streamIn STREAM_STARTED) offlineWorld staleResetEnv onlineWorld
      staleResetEnv).currentState ≠ (streamIn STREAM_STARTED).currentState := by
  decide

/-- C13 (amended): from currentState = s with cachedState IDLE, ssrDownHandler()
followed at once by ssrUpHandler(), where for the replay the card is online on
entry and still online after session open, session open, session prepare and
session start return 0, and no transport reset is signalled after session start
(not both errno = -ENETRESET and the card online), leaves currentState = s
when s is IDLE, INIT or STARTED; a STOPPED stream is left IDLE and a PAUSED
stream is left STARTED; cachedState is IDLE afterwards in every case. -/
theorem C13_ssr_round_trip (s : StreamNonTunnel) (wD wU : World) (eD eU : Env)
    (hcached : s.cachedState = STREAM_IDLE)
    (hup : wU.cardState = CARD_STATUS_ONLINE)
    (hopen : eU.sessionOpen.status = 0)
    (hopenCard : eU.sessionOpen.after.cardState = CARD_STATUS_ONLINE)
    (hprepare : eU.sessionPrepare.status = 0)
    (hstart : eU.sessionStart.status = 0)
    (hreset : ¬ (eU.sessionStart.after.errno = - ENETRESET ∧
      eU.sessionStart.after.cardState = CARD_STATUS_ONLINE)) :
    ((s.currentState = STREAM_IDLE ∨ s.currentState = STREAM_INIT ∨
        s.currentState = STREAM_STARTED) →
      (ssrRoundTrip s wD eD wU eU).currentState = s.currentState) ∧
    (s.currentState = STREAM_STOPPED →
      (ssrRoundTrip s wD eD wU eU).currentState = STREAM_IDLE) ∧
    (s.currentState = STREAM_PAUSED →
      (ssrRoundTrip s wD eD wU eU).currentState = STREAM_STARTED) ∧
    (ssrRoundTrip s wD eD wU eU).cachedState = STREAM_IDLE := by
  have h5 : transportReset eU.sessionStart.after = false := by
    cases hc : eU.sessionStart.after.cardState
    · simp [transportReset, hc]
    · have herr : eU.sessionStart.after.errno ≠ - ENETRESET := fun h => hreset ⟨h, hc⟩
      simp [transportReset, herr]
  rcases s with ⟨cur, cached, sess, attr, depth⟩
  simp only at hcached
  subst hcached
  cases cur <;>
    simp [ssrRoundTrip, StreamNonTunnel.ssrDownHandler, StreamNonTunnel.ssrUpHandler,
      StreamNonTunnel.ssrUpExit, StreamNonTunnel.pause, StreamNonTunnel.stop,
      StreamNonTunnel.open, StreamNonTunnel.start, StreamNonTunnel.lock,
      StreamNonTunnel.unlock, hup, hopen, hopenCard, hprepare, hstart, h5]

/-- Witness for C13: the round trip of a STARTED and of an INIT stream. -/
theorem C13_ssr_round_trip_witness :
    (ssrRoundTrip (streamIn STREAM_STARTED) offlineWorld okEnv onlineWorld okEnv).currentState
      = STREAM_STARTED ∧
    (ssrRoundTrip (streamIn STREAM_INIT) offlineWorld okEnv onlineWorld okEnv).currentState
      = STREAM_INIT ∧
    (ssrRoundTrip (streamIn STREAM_STOPPED) offlineWorld okEnv onlineWorld okEnv).cachedState
      = STREAM_IDLE :=
  ⟨(C13_ssr_round_trip (streamIn STREAM_STARTED) offlineWorld onlineWorld okEnv okEnv
      rfl rfl rfl rfl rfl rfl (by decide)).1 (Or.inr (Or.inr rfl)),
   (C13_ssr_round_trip (streamIn STREAM_INIT) offlineWorld onlineWorld okEnv okEnv
      rfl rfl rfl rfl rfl rfl (by decide)).1 (Or.inr (Or.inl rfl)),
   (C13_ssr_round_trip (streamIn STREAM_STOPPED) offlineWorld onlineWorld okEnv okEnv
      rfl rfl rfl rfl rfl rfl (by decide)).2.2.2⟩

/-! ## Error reporting -/

/-- C15 at its failing input: on an INIT stream, when session close returns -5
and deregistration succeeds, close() returns 0: the status of session close is
overwritten by the status of deregisterStream. ssrDownHandler() on the same
stream returns the -5 of session close. -/
theorem C15_close_drops_session_error :
    (streamIn STREAM_INIT).currentState ≠ STREAM_IDLE ∧
    closeFailsEnv.sessionClose.status = -5 ∧
    closeFailsEnv.deregisterStream = 0 ∧
    ((streamIn STREAM_INIT).close onlineWorld closeFailsEnv).returns = true ∧
    sessionCalls ((streamIn STREAM_INIT).close onlineWorld closeFailsEnv).trace
      = [Event.session_close] ∧
    ((streamIn STREAM_INIT).close onlineWorld closeFailsEnv).status = 0 ∧
    ((streamIn STREAM_INIT).close onlineWorld closeFailsEnv).stream.currentState
      = STREAM_IDLE ∧
    ((streamIn STREAM_INIT).close onlineWorld closeFailsEnv).trace.count
      Event.deregisterStream = 1 ∧
    ((streamIn STREAM_INIT).ssrDownHandler onlineWorld closeFailsEnv).status = -5 := by
  decide

/-- C16: with the card online and cachedState IDLE, write() on a stream that is
not STARTED makes no session call, leaves currentState unchanged, and returns
-EIO when the stream is STOPPED and -EINVAL when it is IDLE, INIT or PAUSED. -/
theorem C16_write_not_started (s : StreamNonTunnel) (w : World) (e : Env) (buf : pal_buffer)
    (hcard : w.cardState = CARD_STATUS_ONLINE)
    (hcached : s.cachedState = STREAM_IDLE) :
    (s.currentState = STREAM_STOPPED →
      (s.write w e buf).status = - EIO ∧ sessionCalls (s.write w e buf).trace = [] ∧
      (s.write w e buf).stream.currentState = s.currentState) ∧
    ((s.currentState = STREAM_IDLE ∨ s.currentState = STREAM_INIT ∨
        s.currentState = STREAM_PAUSED) →
      (s.write w e buf).status = - EINVAL ∧ sessionCalls (s.write w e buf).trace = [] ∧
      (s.write w e buf).stream.currentState = s.currentState) := by
  constructor
  · intro hs
    simp [StreamNonTunnel.write, hcard, hcached, hs, sessionCalls, Event.isSessionCall,
      StreamNonTunnel.lock, StreamNonTunnel.unlock]
  · intro hs
    rcases hs with hs | hs | hs <;>
      simp [StreamNonTunnel.write, hcard, hcached, hs, sessionCalls, Event.isSessionCall,
        StreamNonTunnel.lock, StreamNonTunnel.unlock]

/-- Witness for C16: write() on a STOPPED and on an INIT stream. -/
theorem C16_write_not_started_witness :
    ((streamIn STREAM_STOPPED).write onlineWorld okEnv buf4096).status = - EIO ∧
    ((streamIn STREAM_INIT).write onlineWorld okEnv buf4096).status = - EINVAL :=
  ⟨((C16_write_not_started (streamIn STREAM_STOPPED) onlineWorld okEnv buf4096 rfl rfl).1
      rfl).1,
   ((C16_write_not_started (streamIn STREAM_INIT) onlineWorld okEnv buf4096 rfl rfl).2
      (Or.inr (Or.inl rfl))).1⟩

/-- C17 at its failing input: with the card online and cachedState IDLE, read()
on a STOPPED stream makes no session call and returns -EINVAL, not -EIO, while
write() on the same stream returns -EIO. -/
theorem C17_read_stopped_returns_einval :
    onlineWorld.cardState = CARD_STATUS_ONLINE ∧
    (streamIn STREAM_STOPPED).cachedState = STREAM_IDLE ∧
    ((streamIn STREAM_STOPPED).read onlineWorld okEnv buf4096).status = - EINVAL ∧
    ((streamIn STREAM_STOPPED).read onlineWorld okEnv buf4096).status ≠ - EIO ∧
    sessionCalls ((streamIn STREAM_STOPPED).read onlineWorld okEnv buf4096).trace = [] ∧
    ((streamIn STREAM_STOPPED).write onlineWorld okEnv buf4096).status = - EIO := by
  decide

/-- C18 as stated fails: when the session read (resp. write) fails with -5 and
leaves errno = 5, with no reset and the card online, read() (resp. write())
returns 5, which is not negative. -/
theorem C18_positive_errno_counterexample :
    positiveErrnoEnv.sessionRead.status ≠ 0 ∧
    positiveErrnoEnv.sessionRead.after.cardState = CARD_STATUS_ONLINE ∧
    positiveErrnoEnv.sessionRead.after.errno ≠ - ENETRESET ∧
    ((streamIn STREAM_STARTED).read onlineWorld positiveErrnoEnv buf4096).status = 5 ∧
    ¬ ((streamIn STREAM_STARTED).read onlineWorld positiveErrnoEnv buf4096).status < 0 ∧
    ((streamIn STREAM_STARTED).write onlineWorld positiveErrnoEnv buf4096).status = 5 ∧
    ¬ ((streamIn STREAM_STARTED).write onlineWorld positiveErrnoEnv buf4096).status < 0 := by
  decide

/-- C18 (amended): with the card online before and after the call, cachedState
IDLE and currentState STARTED, if the session read (resp. write) returns a
non-zero status with no transport reset signalled, read() (resp. write())
returns the value of errno the session call left behind, does not call
ssrHandler and leaves currentState unchanged; when the session call returns 0
it returns the byte count the session reported. -/
theorem C18_session_error_data_path (s : StreamNonTunnel) (w : World) (e : Env)
    (buf : pal_buffer)
    (hcard : w.cardState = CARD_STATUS_ONLINE)
    (hcached : s.cachedState = STREAM_IDLE)
    (hstate : s.currentState = STREAM_STARTED) :
    (e.sessionRead.status ≠ 0 → e.sessionRead.after.cardState = CARD_STATUS_ONLINE →
      e.sessionRead.after.errno ≠ - ENETRESET →
        (s.read w e buf).status = e.sessionRead.after.errno ∧
        (∀ c, Event.ssrHandler c ∉ (s.read w e buf).trace) ∧
        (s.read w e buf).stream.currentState = s.currentState) ∧
    (e.sessionRead.status = 0 → (s.read w e buf).status = e.sessionRead.size) ∧
    (e.sessionWrite.status ≠ 0 → e.sessionWrite.after.cardState = CARD_STATUS_ONLINE →
      e.sessionWrite.after.errno ≠ - ENETRESET →
        (s.write w e buf).status = e.sessionWrite.after.errno ∧
        (∀ c, Event.ssrHandler c ∉ (s.write w e buf).trace) ∧
        (s.write w e buf).stream.currentState = s.currentState) ∧
    (e.sessionWrite.status = 0 → (s.write w e buf).status = e.sessionWrite.size) := by
  refine ⟨fun hst hon herr => ?_, fun hst => ?_, fun hst hon herr => ?_, fun hst => ?_⟩
  · simp [StreamNonTunnel.read, hcard, hcached, hstate, hst, transportReset, hon, herr]
  · simp [StreamNonTunnel.read, hcard, hcached, hstate, hst]
  · simp [StreamNonTunnel.write, hcard, hcached, hstate, hst, transportReset, hon, herr,
      StreamNonTunnel.lock, StreamNonTunnel.unlock]
  · simp [StreamNonTunnel.write, hcard, hcached, hstate, hst,
      StreamNonTunnel.lock, StreamNonTunnel.unlock]

/-- Witness for C18: a failing and a succeeding session call for read() and
write() on a STARTED stream. -/
theorem C18_session_error_data_path_witness :
    ((streamIn STREAM_STARTED).read onlineWorld positiveErrnoEnv buf4096).status = 5 ∧
    ((streamIn STREAM_STARTED).read onlineWorld okEnv buf4096).status = 1024 ∧
    ((streamIn STREAM_STARTED).write onlineWorld positiveErrnoEnv buf4096).status = 5 ∧
    ((streamIn STREAM_STARTED).write onlineWorld okEnv buf4096).status = 1024 :=
  ⟨((C18_session_error_data_path (streamIn STREAM_STARTED) onlineWorld positiveErrnoEnv
      buf4096 rfl rfl rfl).1 (by decide) rfl (by decide)).1,
   (C18_session_error_data_path (streamIn STREAM_STARTED) onlineWorld okEnv buf4096
      rfl rfl rfl).2.1 rfl,
   ((C18_session_error_data_path (streamIn STREAM_STARTED) onlineWorld positiveErrnoEnv
      buf4096 rfl rfl rfl).2.2.1 (by decide) rfl (by decide)).1,
   (C18_session_error_data_path (streamIn STREAM_STARTED) onlineWorld okEnv buf4096
      rfl rfl rfl).2.2.2 rfl⟩

/-! ## Synthetic timing -/

/-- For a size below `2 ^ 31` the `uint64_t` expression is computed without
wrap-around and is the quotient by `frameSize * sampleRate`. -/
theorem sleepExpr_of_lt (n fs sr : Nat) (h : n < 2 ^ 31) :
    sleepExpr (toInt32 n) fs sr = n * 1000000 / (fs * sr) := by
  have hlt : n * 1000000 < 2 ^ 64 := by omega
  rw [toInt32_of_lt n h]
  unfold sleepExpr
  rw [toUInt64_natCast n (by omega), Nat.mod_eq_of_lt hlt, Nat.div_div_eq_div_mul]

/-- For a size below `2 ^ 31` whose quotient fits `useconds_t`, the sleep
requested is the quotient by `frameSize * sampleRate`. -/
theorem sleepMicros_of_lt (n fs sr : Nat) (h : n < 2 ^ 31)
    (hq : n * 1000000 / (fs * sr) < 2 ^ 32) :
    sleepMicros (toInt32 n) fs sr = n * 1000000 / (fs * sr) := by
  unfold sleepMicros toUSeconds
  rw [sleepExpr_of_lt n fs sr h, Nat.mod_eq_of_lt hq]

/-- C19 as stated fails: with the card offline, frame size 4 and 48 kHz, a
write() of 2^30 bytes has the quotient 5592405333, but the value passed to
usleep is narrowed to the 32-bit useconds_t and the sleep requested is
1297438037 microseconds. -/
theorem C19_useconds_narrowing_counterexample :
    buf2pow30.size < 2 ^ 31 ∧
    frameSize (streamIn STREAM_STARTED).mStreamAttr.out_media_config = 4 ∧
    (streamIn STREAM_STARTED).mStreamAttr.out_media_config.sample_rate = 48000 ∧
    buf2pow30.size * 1000000 / 4 / 48000 = 5592405333 ∧
    sleepRequests ((streamIn STREAM_STARTED).write offlineWorld okEnv buf2pow30).trace
      = [1297438037] ∧
    sleepRequests ((streamIn STREAM_STARTED).write offlineWorld okEnv buf2pow30).trace
      ≠ [buf2pow30.size * 1000000 / 4 / 48000] := by
  decide

/-- C19 (amended): in the offline branch of read() and write(), for a buffer
size below 2^31 and non-zero frame size and sample rate whose quotient
((size * 1000000) / frameSize) / sampleRate is below 2^32, the single sleep
requested is that quotient in microseconds, computed in 64-bit unsigned
arithmetic without overflow; it equals the floor of
size * 10^6 / (frameSize * sampleRate); for size 4096, frame size 4 and 48 kHz
it is 21333. -/
theorem C19_sleep_duration (s : StreamNonTunnel) (w : World) (e : Env) (buf : pal_buffer)
    (hoff : w.cardState = CARD_STATUS_OFFLINE ∨ s.cachedState ≠ STREAM_IDLE)
    (hsize : buf.size < 2 ^ 31) :
    (∀ fs sr : Nat, fs ≠ 0 → sr ≠ 0 → buf.size * 1000000 / fs / sr < 2 ^ 32 →
      buf.size * 1000000 < 2 ^ 64 ∧
      sleepMicros (toInt32 buf.size) fs sr = buf.size * 1000000 / fs / sr ∧
      sleepMicros (toInt32 buf.size) fs sr = buf.size * 1000000 / (fs * sr) ∧
      sleepMicros (toInt32 buf.size) fs sr
        = Nat.floor (((buf.size * 1000000 : Nat) : ℚ) / ((fs * sr : Nat) : ℚ))) ∧
    (frameSize s.mStreamAttr.in_media_config ≠ 0 →
      s.mStreamAttr.in_media_config.sample_rate ≠ 0 →
      buf.size * 1000000 / frameSize s.mStreamAttr.in_media_config
          / s.mStreamAttr.in_media_config.sample_rate < 2 ^ 32 →
        sleepRequests (s.read w e buf).trace
          = [buf.size * 1000000 / frameSize s.mStreamAttr.in_media_config
              / s.mStreamAttr.in_media_config.sample_rate]) ∧
    (frameSize s.mStreamAttr.out_media_config ≠ 0 →
      s.mStreamAttr.out_media_config.sample_rate ≠ 0 →
      buf.size * 1000000 / frameSize s.mStreamAttr.out_media_config
          / s.mStreamAttr.out_media_config.sample_rate < 2 ^ 32 →
        sleepRequests (s.write w e buf).trace
          = [buf.size * 1000000 / frameSize s.mStreamAttr.out_media_config
              / s.mStreamAttr.out_media_config.sample_rate]) ∧
    sleepMicros (toInt32 4096) 4 48000 = 21333 := by
  have hval : ∀ fs sr : Nat, buf.size * 1000000 / fs / sr < 2 ^ 32 →
      sleepMicros (toInt32 buf.size) fs sr = buf.size * 1000000 / fs / sr := by
    intro fs sr hq
    rw [Nat.div_div_eq_div_mul] at hq ⊢
    exact sleepMicros_of_lt buf.size fs sr hsize hq
  refine ⟨?_, ?_, ?_, ?_⟩
  · intro fs sr _ _ hq
    have h1 := hval fs sr hq
    refine ⟨by omega, h1, ?_, ?_⟩
    · rw [h1, Nat.div_div_eq_div_mul]
    · rw [h1, Nat.div_div_eq_div_mul, Nat.floor_div_eq_div]
  · intro hf hr hq
    simp [StreamNonTunnel.read, hoff, hf, hr, sleepRequests, hval _ _ hq]
  · intro hf hr hq
    simp [StreamNonTunnel.write, hoff, hf, hr, sleepRequests, hval _ _ hq,
      StreamNonTunnel.lock, StreamNonTunnel.unlock]
  · rw [sleepMicros_of_lt 4096 4 48000 (by norm_num) (by norm_num)]

/-- Witness for C19: write() and read() of 4096 bytes at frame size 4 and 48 kHz
while the card is offline request a sleep of 21333 microseconds. -/
theorem C19_sleep_duration_witness :
    sleepRequests ((streamIn STREAM_STARTED).write offlineWorld okEnv buf4096).trace
      = [21333] ∧
    sleepRequests ((streamIn STREAM_STARTED).read offlineWorld okEnv buf4096).trace
      = [21333] ∧
    sleepMicros (toInt32 4096) 4 48000 = 4096 * 1000000 / (4 * 48000) :=
  ⟨(C19_sleep_duration (streamIn STREAM_STARTED) offlineWorld okEnv buf4096 (Or.inl rfl)
      (by decide)).2.2.1 (by decide) (by decide) (by decide),
   (C19_sleep_duration (streamIn STREAM_STARTED) offlineWorld okEnv buf4096 (Or.inl rfl)
      (by decide)).2.1 (by decide) (by decide) (by decide),
   ((C19_sleep_duration (streamIn STREAM_STARTED) offlineWorld okEnv buf4096 (Or.inl rfl)
      (by decide)).1 4 48000 (by decide) (by decide) (by decide)).2.2.1⟩

/-! ## Graph-lock discipline -/

/-- C20 as stated fails: open() calls session open, and prepare() calls session
prepare, without taking the graph lock at all. -/
theorem C20_unguarded_session_call_counterexample :
    sessionCalls ((streamIn STREAM_IDLE).open onlineWorld okEnv).trace
      = [Event.session_open] ∧
    graphLockCalls ((streamIn STREAM_IDLE).open onlineWorld okEnv).trace = [] ∧
    guardedUnderGraphLock ((streamIn STREAM_IDLE).open onlineWorld okEnv).trace = false ∧
    sessionCalls ((streamIn STREAM_INIT).prepare onlineWorld okEnv).trace
      = [Event.session_prepare] ∧
    graphLockCalls ((streamIn STREAM_INIT).prepare onlineWorld okEnv).trace = [] ∧
    guardedUnderGraphLock ((streamIn STREAM_INIT).prepare onlineWorld okEnv).trace = false := by
  decide

/-- C20 (amended): in start(), close() and ssrDownHandler() every session close,
session start and session prepare happens while the graph lock is held; in
open(), start(), close(), prepare() and ssrDownHandler() every lockGraph is
matched by exactly one unlockGraph before the operation returns, on every
return path; read() and write() never take the graph lock. -/
theorem C20_graph_lock_discipline (s : StreamNonTunnel) (w : World) (e : Env)
    (buf : pal_buffer) :
    (guardedUnderGraphLock (s.start w e).trace = true ∧
      guardedUnderGraphLock (s.close w e).trace = true ∧
      guardedUnderGraphLock (s.ssrDownHandler w e).trace = true) ∧
    (graphLockBalanced (s.open w e).trace = true ∧
      graphLockBalanced (s.start w e).trace = true ∧
      graphLockBalanced (s.close w e).trace = true ∧
      graphLockBalanced (s.prepare w e).trace = true ∧
      graphLockBalanced (s.ssrDownHandler w e).trace = true) ∧
    (graphLockCalls (s.read w e buf).trace = [] ∧
      graphLockCalls (s.write w e buf).trace = []) := by
  refine ⟨⟨?_, ?_, ?_⟩, ⟨?_, ?_, ?_, ?_, ?_⟩, ⟨?_, ?_⟩⟩
  · simp only [StreamNonTunnel.start]
    split_ifs <;> rfl
  · simp only [StreamNonTunnel.close, StreamNonTunnel.closeExit, StreamNonTunnel.stop]
    split_ifs <;> rfl
  · simp only [StreamNonTunnel.ssrDownHandler, StreamNonTunnel.stop]
    split_ifs <;> rfl
  · simp only [StreamNonTunnel.open]
    split_ifs <;> rfl
  · simp only [StreamNonTunnel.start]
    split_ifs <;> rfl
  · simp only [StreamNonTunnel.close, StreamNonTunnel.closeExit, StreamNonTunnel.stop]
    split_ifs <;> rfl
  · rfl
  · simp only [StreamNonTunnel.ssrDownHandler, StreamNonTunnel.stop]
    split_ifs <;> rfl
  · simp only [StreamNonTunnel.read]
    split_ifs <;> rfl
  · simp only [StreamNonTunnel.write]
    split_ifs <;> rfl

/-! ## Construction and unsupported operations -/

/-- C21: construction fails when the attributes are missing, when the card is
offline, when the attribute copy cannot be allocated, or when the session
factory returns no session; no failing construction invokes registerStream; a
successful one invokes registerStream exactly once, right after the session
callback is registered, and yields currentState = cachedState = IDLE.
Construction succeeds when none of the four failure causes is present. -/
theorem C21_construction (sattr : Option pal_stream_attributes) (w : World)
    (c : ConstructEnv) (maxChannels : Nat) :
    ((sattr = none ∨ w.cardState = CARD_STATUS_OFFLINE ∨ c.callocOk = false ∨
        c.makeSessionOk = false) →
      (StreamNonTunnel.construct sattr w c maxChannels).failed = true) ∧
    ((StreamNonTunnel.construct sattr w c maxChannels).failed = true →
      Event.registerStream ∉ (StreamNonTunnel.construct sattr w c maxChannels).trace) ∧
    (∀ s, (StreamNonTunnel.construct sattr w c maxChannels).outcome = Constructed.built s →
      (StreamNonTunnel.construct sattr w c maxChannels).trace.count Event.registerStream = 1 ∧
      (StreamNonTunnel.construct sattr w c maxChannels).trace
        = [Event.mutex_lock 0, Event.makeSession, Event.session_registerCallBack,
           Event.registerStream, Event.mutex_unlock] ∧
      s.currentState = STREAM_IDLE ∧ s.cachedState = STREAM_IDLE) ∧
    (sattr ≠ none → w.cardState = CARD_STATUS_ONLINE → c.callocOk = true →
      c.makeSessionOk = true →
        (StreamNonTunnel.construct sattr w c maxChannels).failed = false) := by
  rcases c with ⟨co, mo⟩
  cases sattr <;> cases hw : w.cardState <;> cases co <;> cases mo <;>
    simp [StreamNonTunnel.construct, ConstructResult.failed, hw, List.count_cons]

/-- Witness for C21: construction with the card offline, with a failing session
factory, and with everything in order. -/
theorem C21_construction_witness :
    (StreamNonTunnel.construct (some stereo48k) offlineWorld constructOk 8).failed = true ∧
    Event.registerStream ∉
      (StreamNonTunnel.construct (some stereo48k) onlineWorld
        { callocOk := true, makeSessionOk := false } 8).trace ∧
    (StreamNonTunnel.construct (some stereo48k) onlineWorld constructOk 8).trace.count
      Event.registerStream = 1 ∧
    (StreamNonTunnel.construct (some stereo48k) onlineWorld constructOk 8).failed = false :=
  ⟨(C21_construction (some stereo48k) offlineWorld constructOk 8).1 (Or.inr (Or.inl rfl)),
   (C21_construction (some stereo48k) onlineWorld
      { callocOk := true, makeSessionOk := false } 8).2.1 (by decide),
   ((C21_construction (some stereo48k) onlineWorld constructOk 8).2.2.1
      (freshStream stereo48k) (by decide)).1,
   (C21_construction (some stereo48k) onlineWorld constructOk 8).2.2.2 (by decide) rfl
      rfl rfl⟩

/-- C22: pause() and resume() return -EINVAL, make no session call and leave
currentState and cachedState unchanged, for every stream state and card
state. -/
theorem C22_pause_resume_unsupported (s : StreamNonTunnel) (w : World) (e : Env) :
    ((s.pause w e).status = - EINVAL ∧ sessionCalls (s.pause w e).trace = [] ∧
      (s.pause w e).stream.currentState = s.currentState ∧
      (s.pause w e).stream.cachedState = s.cachedState) ∧
    ((s.resume w e).status = - EINVAL ∧ sessionCalls (s.resume w e).trace = [] ∧
      (s.resume w e).stream.currentState = s.currentState ∧
      (s.resume w e).stream.cachedState = s.cachedState) := by
  simp [StreamNonTunnel.pause, StreamNonTunnel.resume, sessionCalls]

/-! ## Reachable states -/

/-- The operation open() keeps both states away from PAUSED. -/
theorem neverPaused_open (s : StreamNonTunnel) (w : World) (e : Env) (h : neverPaused s) :
    neverPaused (s.open w e).stream := by
  rcases h with ⟨h1, h2⟩
  simp only [StreamNonTunnel.open, neverPaused]
  split_ifs <;> simp_all [StreamNonTunnel.lock, StreamNonTunnel.unlock]

/-- The operation start() keeps both states away from PAUSED. -/
theorem neverPaused_start (s : StreamNonTunnel) (w : World) (e : Env) (h : neverPaused s) :
    neverPaused (s.start w e).stream := by
  rcases h with ⟨h1, h2⟩
  simp only [StreamNonTunnel.start, neverPaused]
  split_ifs <;> simp_all [StreamNonTunnel.lock, StreamNonTunnel.unlock]

/-- The operation stop() keeps both states away from PAUSED. -/
theorem neverPaused_stop (s : StreamNonTunnel) (w : World) (e : Env) (h : neverPaused s) :
    neverPaused (s.stop w e).stream := by
  rcases h with ⟨h1, h2⟩
  simp only [StreamNonTunnel.stop, neverPaused]
  split_ifs <;> simp_all [StreamNonTunnel.lock, StreamNonTunnel.unlock]

/-- The operation close() keeps both states away from PAUSED. -/
theorem neverPaused_close (s : StreamNonTunnel) (w : World) (e : Env) (h : neverPaused s) :
    neverPaused (s.close w e).stream := by
  rcases h with ⟨h1, h2⟩
  simp only [StreamNonTunnel.close, StreamNonTunnel.closeExit,
    StreamNonTunnel.blockedAtLock, neverPaused]
  split_ifs <;> simp_all [StreamNonTunnel.lock, StreamNonTunnel.unlock]

/-- The operation ssrDownHandler() keeps both states away from PAUSED. -/
theorem neverPaused_ssrDownHandler (s : StreamNonTunnel) (w : World) (e : Env)
    (h : neverPaused s) : neverPaused (s.ssrDownHandler w e).stream := by
  rcases s with ⟨cur, cached, sess, attr, depth⟩
  rcases h with ⟨h1, h2⟩
  cases cur <;> cases cached <;>
    simp_all [neverPaused, StreamNonTunnel.ssrDownHandler, StreamNonTunnel.stop,
      StreamNonTunnel.lock, StreamNonTunnel.unlock]

/-- The operation ssrUpHandler() keeps both states away from PAUSED. -/
theorem neverPaused_ssrUpHandler (s : StreamNonTunnel) (w : World) (e : Env)
    (h : neverPaused s) : neverPaused (s.ssrUpHandler w e).stream := by
  have ho := neverPaused_open s w e h
  have hs := neverPaused_start (s.open w e).stream (s.open w e).world e ho
  simp only [StreamNonTunnel.ssrUpHandler, StreamNonTunnel.ssrUpExit,
    StreamNonTunnel.pause, neverPaused]
  split_ifs <;> simp_all [neverPaused]

/-- Every operation keeps both states away from PAUSED. -/
theorem neverPaused_perform (s : StreamNonTunnel) (st : OpStep) (h : neverPaused s) :
    neverPaused (s.perform st) := by
  rcases st with ⟨op, w, e⟩
  cases op with
  | OPEN => exact neverPaused_open s w e h
  | START => exact neverPaused_start s w e h
  | STOP => exact neverPaused_stop s w e h
  | CLOSE => exact neverPaused_close s w e h
  | PREPARE => exact h
  | READ buf =>
    simp only [StreamNonTunnel.perform, StreamNonTunnel.read]
    split_ifs <;> exact h
  | WRITE buf =>
    simp only [StreamNonTunnel.perform, StreamNonTunnel.write]
    split_ifs <;> exact h
  | PAUSE => exact h
  | RESUME => exact h
  | SSR_DOWN => exact neverPaused_ssrDownHandler s w e h
  | SSR_UP => exact neverPaused_ssrUpHandler s w e h

/-- The invariant holds along every sequence of operations. -/
theorem neverPaused_runOps (ops : List OpStep) :
    ∀ s : StreamNonTunnel, neverPaused s → neverPaused (runOps s ops) := by
  induction ops with
  | nil => intro s h; exact h
  | cons st rest ih => intro s h; exact ih (s.perform st) (neverPaused_perform s st h)

/-- C23: starting from a freshly constructed stream, after any finite sequence
of open, start, stop, close, prepare, read, write, pause, resume,
ssrDownHandler and ssrUpHandler calls, under any card states and session
results, neither currentState nor cachedState is PAUSED; so the tests for
PAUSED in stop(), close() and ssrDownHandler() never succeed on that account,
and a further ssrUpHandler() never reaches its call to pause(). -/
theorem C23_paused_unreachable (attr : pal_stream_attributes) (ops : List OpStep)
    (w : World) (e : Env) :
    (runOps (freshStream attr) ops).currentState ≠ STREAM_PAUSED ∧
    (runOps (freshStream attr) ops).cachedState ≠ STREAM_PAUSED ∧
    (((runOps (freshStream attr) ops).currentState = STREAM_STARTED ∨
        (runOps (freshStream attr) ops).currentState = STREAM_PAUSED) ↔
      (runOps (freshStream attr) ops).currentState = STREAM_STARTED) ∧
    ReplayCall.PAUSE ∉ ((runOps (freshStream attr) ops).ssrUpHandler w e).calls := by
  have hinv : neverPaused (runOps (freshStream attr) ops) :=
    neverPaused_runOps ops (freshStream attr) (by simp [neverPaused, freshStream])
  rcases hinv with ⟨h1, h2⟩
  refine ⟨h1, h2, ?_, ?_⟩
  · constructor
    · rintro (h | h)
      · exact h
      · exact absurd h h1
    · exact Or.inl
  · simp only [StreamNonTunnel.ssrUpHandler, StreamNonTunnel.ssrUpExit]
    split_ifs <;> simp_all

/-! ## Stream mutex discipline -/

/-- C24 at its failing input: on the STARTED stream reached by open() and
start(), with the mutex free, close() takes the mutex at depth 0 and the stop()
it then calls takes it again at depth 1, where the call waits for ever.
ssrDownHandler() on the same stream releases the mutex before calling stop():
all its locks are at depth 0. -/
theorem C24_close_relocks_held_mutex :
    (runLifecycle (freshStream stereo48k) openThenStart).currentState = STREAM_STARTED ∧
    (runLifecycle (freshStream stereo48k) openThenStart).mStreamMutex = 0 ∧
    lockDepths ((runLifecycle (freshStream stereo48k) openThenStart).close onlineWorld
      okEnv).trace = [0, 1] ∧
    locksOnlyWhenFree ((runLifecycle (freshStream stereo48k) openThenStart).close
      onlineWorld okEnv).trace = false ∧
    lockDepths ((runLifecycle (freshStream stereo48k) openThenStart).ssrDownHandler
      onlineWorld okEnv).trace = [0, 0, 0] ∧
    ((runLifecycle (freshStream stereo48k) openThenStart).ssrDownHandler onlineWorld
      okEnv).stream.mStreamMutex = 0 ∧
    ((runLifecycle (freshStream stereo48k) openThenStart).close onlineWorld
      okEnv).stream.mStreamMutex = 1 ∧
    ((runLifecycle (freshStream stereo48k) openThenStart).close onlineWorld
      okEnv).returns = false := by
  decide

/-- The lock depths of a concatenated trace. -/
theorem lockDepths_append (a b : List Event) :
    lockDepths (a ++ b) = lockDepths a ++ lockDepths b := by
  induction a with
  | nil => rfl
  | cons ev t ih => cases ev <;> simp [lockDepths, ih]

/-- The operation open() locks once, at the depth it finds, and restores it. -/
theorem lockDepths_open (s : StreamNonTunnel) (w : World) (e : Env) :
    lockDepths (s.open w e).trace = [s.mStreamMutex] ∧
    (s.open w e).stream.mStreamMutex = s.mStreamMutex := by
  simp only [StreamNonTunnel.open, StreamNonTunnel.lock, StreamNonTunnel.unlock]
  split_ifs <;> exact ⟨rfl, rfl⟩

/-- The operation start() locks once, at the depth it finds, and restores it. -/
theorem lockDepths_start (s : StreamNonTunnel) (w : World) (e : Env) :
    lockDepths (s.start w e).trace = [s.mStreamMutex] ∧
    (s.start w e).stream.mStreamMutex = s.mStreamMutex := by
  simp only [StreamNonTunnel.start, StreamNonTunnel.lock, StreamNonTunnel.unlock]
  split_ifs <;> exact ⟨rfl, rfl⟩

/-- The operation stop() locks once, at the depth it finds, and restores it. -/
theorem lockDepths_stop (s : StreamNonTunnel) (w : World) (e : Env) :
    lockDepths (s.stop w e).trace = [s.mStreamMutex] ∧
    (s.stop w e).stream.mStreamMutex = s.mStreamMutex := by
  simp only [StreamNonTunnel.stop, StreamNonTunnel.lock, StreamNonTunnel.unlock]
  split_ifs <;> exact ⟨rfl, rfl⟩

/-- The operation write() locks once, at the depth it finds, and restores it. -/
theorem lockDepths_write (s : StreamNonTunnel) (w : World) (e : Env) (buf : pal_buffer) :
    lockDepths (s.write w e buf).trace = [s.mStreamMutex] ∧
    (s.write w e buf).stream.mStreamMutex = s.mStreamMutex := by
  simp only [StreamNonTunnel.write, StreamNonTunnel.lock, StreamNonTunnel.unlock]
  split_ifs <;> exact ⟨rfl, rfl⟩

/-- The operation ssrDownHandler() takes every lock at the depth it was called
with, and restores that depth. -/
theorem lockDepths_ssrDownHandler (s : StreamNonTunnel) (w : World) (e : Env) :
    (∀ d ∈ lockDepths (s.ssrDownHandler w e).trace, d = s.mStreamMutex) ∧
    (s.ssrDownHandler w e).stream.mStreamMutex = s.mStreamMutex := by
  rcases s with ⟨cur, cached, sess, attr, depth⟩
  cases cur <;> cases cached <;>
    simp [StreamNonTunnel.ssrDownHandler, StreamNonTunnel.stop, StreamNonTunnel.lock,
      StreamNonTunnel.unlock, lockDepths]

/-- The operation ssrUpHandler() takes every lock at the depth it was called
with, and restores that depth. -/
theorem lockDepths_ssrUpHandler (s : StreamNonTunnel) (w : World) (e : Env) :
    (∀ d ∈ lockDepths (s.ssrUpHandler w e).trace, d = s.mStreamMutex) ∧
    (s.ssrUpHandler w e).stream.mStreamMutex = s.mStreamMutex := by
  have ho := lockDepths_open s w e
  have hs := lockDepths_start (s.open w e).stream (s.open w e).world e
  simp only [StreamNonTunnel.ssrUpHandler, StreamNonTunnel.ssrUpExit,
    StreamNonTunnel.pause]
  split_ifs <;>
    simp [lockDepths_append, lockDepths, ho.1, ho.2, hs.1, hs.2]

/-- Unless it starts in STARTED or PAUSED, close() locks once, at the depth it
finds, and restores that depth. -/
theorem lockDepths_close (s : StreamNonTunnel) (w : World) (e : Env)
    (h : s.currentState ≠ STREAM_STARTED ∧ s.currentState ≠ STREAM_PAUSED) :
    lockDepths (s.close w e).trace = [s.mStreamMutex] ∧
    (s.close w e).stream.mStreamMutex = s.mStreamMutex := by
  rcases s with ⟨cur, cached, sess, attr, depth⟩
  cases cur <;>
    simp_all [StreamNonTunnel.close, StreamNonTunnel.closeExit,
      StreamNonTunnel.lock, StreamNonTunnel.unlock, lockDepths]

/-- Started with the mutex free, every listed operation other than close()
from STARTED or PAUSED takes each lock at depth 0 and returns with the mutex
free. -/
theorem mutex_discipline_elsewhere (s : StreamNonTunnel) (w : World) (e : Env)
    (buf : pal_buffer) (r : Reply) (moduleConfigId param_id : Nat) (payload : Bool)
    (hfree : s.mStreamMutex = 0) :
    (locksOnlyWhenFree (s.open w e).trace = true ∧ (s.open w e).stream.mStreamMutex = 0) ∧
    (locksOnlyWhenFree (s.start w e).trace = true ∧ (s.start w e).stream.mStreamMutex = 0) ∧
    (locksOnlyWhenFree (s.stop w e).trace = true ∧ (s.stop w e).stream.mStreamMutex = 0) ∧
    (locksOnlyWhenFree (s.prepare w e).trace = true ∧
      (s.prepare w e).stream.mStreamMutex = 0) ∧
    (locksOnlyWhenFree (s.write w e buf).trace = true ∧
      (s.write w e buf).stream.mStreamMutex = 0) ∧
    (locksOnlyWhenFree (s.flush w r).trace = true ∧ (s.flush w r).stream.mStreamMutex = 0) ∧
    (locksOnlyWhenFree (s.setParameters w r moduleConfigId param_id payload).trace = true ∧
      (s.setParameters w r moduleConfigId param_id payload).stream.mStreamMutex = 0) ∧
    (locksOnlyWhenFree (s.ssrDownHandler w e).trace = true ∧
      (s.ssrDownHandler w e).stream.mStreamMutex = 0) ∧
    (locksOnlyWhenFree (s.ssrUpHandler w e).trace = true ∧
      (s.ssrUpHandler w e).stream.mStreamMutex = 0) ∧
    ((s.currentState ≠ STREAM_STARTED ∧ s.currentState ≠ STREAM_PAUSED) →
      locksOnlyWhenFree (s.close w e).trace = true ∧
      (s.close w e).stream.mStreamMutex = 0) := by
  have hall : ∀ t : List Event, (∀ d ∈ lockDepths t, d = s.mStreamMutex) →
      locksOnlyWhenFree t = true := by
    intro t ht
    simp only [locksOnlyWhenFree, List.all_eq_true, beq_iff_eq]
    intro d hd
    rw [ht d hd, hfree]
  have hone : ∀ t : List Event, lockDepths t = [s.mStreamMutex] →
      locksOnlyWhenFree t = true := by
    intro t ht
    apply hall
    intro d hd
    rw [ht] at hd
    simpa using hd
  refine ⟨⟨hone _ (lockDepths_open s w e).1, by rw [(lockDepths_open s w e).2, hfree]⟩,
    ⟨hone _ (lockDepths_start s w e).1, by rw [(lockDepths_start s w e).2, hfree]⟩,
    ⟨hone _ (lockDepths_stop s w e).1, by rw [(lockDepths_stop s w e).2, hfree]⟩,
    ⟨hone _ rfl, by simp [StreamNonTunnel.prepare, StreamNonTunnel.lock,
      StreamNonTunnel.unlock, hfree]⟩,
    ⟨hone _ (lockDepths_write s w e buf).1, by rw [(lockDepths_write s w e buf).2, hfree]⟩,
    ⟨hone _ rfl, by simp [StreamNonTunnel.flush, StreamNonTunnel.lock,
      StreamNonTunnel.unlock, hfree]⟩,
    ?_,
    ⟨hall _ (lockDepths_ssrDownHandler s w e).1,
      by rw [(lockDepths_ssrDownHandler s w e).2, hfree]⟩,
    ⟨hall _ (lockDepths_ssrUpHandler s w e).1,
      by rw [(lockDepths_ssrUpHandler s w e).2, hfree]⟩,
    fun h => ⟨hone _ (lockDepths_close s w e h).1,
      by rw [(lockDepths_close s w e h).2, hfree]⟩⟩
  simp only [StreamNonTunnel.setParameters, StreamNonTunnel.lock, StreamNonTunnel.unlock]
  split_ifs
  · exact ⟨rfl, hfree⟩
  · exact ⟨hone _ rfl, by simp [hfree]⟩
  · exact ⟨hone _ rfl, by simp [hfree]⟩

/-! ## Format checks -/

/-- C25: isSampleRateSupported returns 0 for every sample rate, listed or not;
isBitWidthSupported returns 0 exactly for the listed widths (16, 24 and 32 when
the constants carry those values) and -EINVAL otherwise; isChannelSupported
returns 0 exactly for the listed channel counts and -EINVAL otherwise. -/
theorem C25_format_checks (k : FormatConstants) :
    (∀ rate : Nat, isSampleRateSupported k rate = 0) ∧
    (∀ w : Nat,
      (isBitWidthSupported k w = 0 ↔
        w = k.BITWIDTH_16 ∨ w = k.BITWIDTH_24 ∨ w = k.BITWIDTH_32) ∧
      (¬ (w = k.BITWIDTH_16 ∨ w = k.BITWIDTH_24 ∨ w = k.BITWIDTH_32) →
        isBitWidthSupported k w = - EINVAL)) ∧
    (k.BITWIDTH_16 = 16 → k.BITWIDTH_24 = 24 → k.BITWIDTH_32 = 32 →
      ∀ w : Nat,
        (isBitWidthSupported k w = 0 ↔ w = 16 ∨ w = 24 ∨ w = 32) ∧
        (¬ (w = 16 ∨ w = 24 ∨ w = 32) → isBitWidthSupported k w = - EINVAL)) ∧
    (∀ n : Nat,
      (isChannelSupported k n = 0 ↔ n ∈ k.channelCounts) ∧
      (n ∉ k.channelCounts → isChannelSupported k n = - EINVAL)) := by
  have hne : (- EINVAL : Int) ≠ 0 := by decide
  refine ⟨?_, ?_, ?_, ?_⟩
  · intro rate
    simp [isSampleRateSupported]
  · intro w
    by_cases h : w ∈ k.bitWidths
    · have h3 : w = k.BITWIDTH_16 ∨ w = k.BITWIDTH_24 ∨ w = k.BITWIDTH_32 := by
        simpa [FormatConstants.bitWidths] using h
      simp [isBitWidthSupported, h, h3]
    · have h3 : ¬ (w = k.BITWIDTH_16 ∨ w = k.BITWIDTH_24 ∨ w = k.BITWIDTH_32) := by
        simpa [FormatConstants.bitWidths] using h
      simp only [isBitWidthSupported, if_neg h]
      exact ⟨⟨fun h0 => absurd h0 hne, fun h0 => absurd h0 h3⟩, fun _ => trivial⟩
  · intro h16 h24 h32 w
    by_cases h : w ∈ k.bitWidths
    · have h3 : w = 16 ∨ w = 24 ∨ w = 32 := by
        simpa [FormatConstants.bitWidths, h16, h24, h32] using h
      simp [isBitWidthSupported, h, h3]
    · have h3 : ¬ (w = 16 ∨ w = 24 ∨ w = 32) := by
        simpa [FormatConstants.bitWidths, h16, h24, h32] using h
      simp only [isBitWidthSupported, if_neg h]
      exact ⟨⟨fun h0 => absurd h0 hne, fun h0 => absurd h0 h3⟩, fun _ => trivial⟩
  · intro n
    by_cases h : n ∈ k.channelCounts
    · simp [isChannelSupported, h]
    · simp only [isChannelSupported, if_neg h]
      exact ⟨⟨fun h0 => absurd h0 hne, fun h0 => absurd h0 h⟩, fun _ => trivial⟩

/-- Witness for C25: an unlisted rate is accepted, width 24 is accepted and
width 20 refused, six channels are accepted and nine refused. -/
theorem C25_format_checks_witness :
    isSampleRateSupported namedFormatConstants 12345 = 0 ∧
    isBitWidthSupported namedFormatConstants 24 = 0 ∧
    isBitWidthSupported namedFormatConstants 20 = - EINVAL ∧
    isChannelSupported namedFormatConstants 6 = 0 ∧
    isChannelSupported namedFormatConstants 9 = - EINVAL :=
  ⟨(C25_format_checks namedFormatConstants).1 12345,
   ((C25_format_checks namedFormatConstants).2.2.1 rfl rfl rfl 24).1.2 (by decide),
   ((C25_format_checks namedFormatConstants).2.2.1 rfl rfl rfl 20).2 (by decide),
   ((C25_format_checks namedFormatConstants).2.2.2 6).1.2 (by decide),
   ((C25_format_checks namedFormatConstants).2.2.2 9).2 (by decide)⟩

end PalStream
